import Mathlib

/-!
# AVulkan: swapchain negotiation and the frame loop

A shallow embedding of `src/AVulkan.cpp`.  Unsigned 32-bit values are natural
numbers, reduced modulo `2 ^ 32` where the source computes with them.  Calls
into the Vulkan driver and SDL are not executed: every value such a call
hands back is an argument of the embedded function, and every call a claim
speaks about is recorded in a list of `Call`s, in program order.  A C++
`throw` is an explicit result carrying the message; indexing a `std::vector`
outside its size is undefined behaviour and is reported as such.
-/

namespace AVulkan

/-! ## Constants and plain data -/

/-- Number of values of a `uint32_t`. -/
def UINT32_SIZE : Nat := 2 ^ 32

/-- Conversion of an `int` to `uint32_t` (value modulo `2 ^ 32`). -/
def toUInt32 (x : Int) : Nat := (x % (2 ^ 32 : Int)).toNat

/-- Global `int WIDTH = 1280;`. -/
def WIDTH : Int := 1280

/-- Global `int HEIGHT = 720;`. -/
def HEIGHT : Int := 720

/-- Constant `const int MAX_FRAMES_IN_FLIGHT = 2;`. -/
def MAX_FRAMES_IN_FLIGHT : Nat := 2

/-- Dispatchable and non-dispatchable Vulkan handles. -/
abbrev Handle := Nat

/-- The null handle. -/
def VK_NULL_HANDLE : Handle := 0

/-- Result codes of the Vulkan entry points the program calls. -/
inductive VkResult
  | VK_SUCCESS
  | VK_NOT_READY
  | VK_TIMEOUT
  | VK_INCOMPLETE
  | VK_SUBOPTIMAL_KHR
  | VK_ERROR_OUT_OF_DATE_KHR
  | VK_ERROR_SURFACE_LOST_KHR
  | VK_ERROR_DEVICE_LOST
  | VK_ERROR_OUT_OF_HOST_MEMORY
  | VK_ERROR_OUT_OF_DEVICE_MEMORY
  | VK_ERROR_INITIALIZATION_FAILED
  | VK_ERROR_INCOMPATIBLE_DRIVER
  | VK_ERROR_LAYER_NOT_PRESENT
  | VK_ERROR_EXTENSION_NOT_PRESENT
  | VK_ERROR_UNKNOWN
  deriving DecidableEq, Repr

/-- Presentation modes (`VkPresentModeKHR`). -/
inductive VkPresentModeKHR
  | VK_PRESENT_MODE_IMMEDIATE_KHR
  | VK_PRESENT_MODE_MAILBOX_KHR
  | VK_PRESENT_MODE_FIFO_KHR
  | VK_PRESENT_MODE_FIFO_RELAXED_KHR
  deriving DecidableEq, Repr

/-- Pixel formats (`VkFormat`); the program only compares them. -/
inductive VkFormat
  | VK_FORMAT_UNDEFINED
  | VK_FORMAT_R8G8B8A8_UNORM
  | VK_FORMAT_R8G8B8A8_SRGB
  | VK_FORMAT_B8G8R8A8_UNORM
  | VK_FORMAT_B8G8R8A8_SRGB
  | VK_FORMAT_A2B10G10R10_UNORM_PACK32
  | VK_FORMAT_R16G16B16A16_SFLOAT
  deriving DecidableEq, Repr

/-- Color spaces (`VkColorSpaceKHR`); the program only compares them. -/
inductive VkColorSpaceKHR
  | VK_COLOR_SPACE_SRGB_NONLINEAR_KHR
  | VK_COLOR_SPACE_DISPLAY_P3_NONLINEAR_EXT
  | VK_COLOR_SPACE_EXTENDED_SRGB_LINEAR_EXT
  | VK_COLOR_SPACE_HDR10_ST2084_EXT
  deriving DecidableEq, Repr

/-- A `VkSurfaceFormatKHR`: pixel format and color space. -/
structure VkSurfaceFormatKHR where
  format : VkFormat
  colorSpace : VkColorSpaceKHR
  deriving DecidableEq, Repr

/-- A `VkExtent2D`. -/
structure VkExtent2D where
  width : Nat
  height : Nat
  deriving DecidableEq, Repr

/-- The fields of `VkSurfaceCapabilitiesKHR` the program reads. -/
structure VkSurfaceCapabilitiesKHR where
  minImageCount : Nat
  maxImageCount : Nat
  currentExtent : VkExtent2D
  minImageExtent : VkExtent2D
  maxImageExtent : VkExtent2D
  supportedTransforms : Nat
  currentTransform : Nat
  supportedUsageFlags : Nat
  deriving DecidableEq, Repr

/-- Bit `VK_IMAGE_USAGE_COLOR_ATTACHMENT_BIT`. -/
def VK_IMAGE_USAGE_COLOR_ATTACHMENT_BIT : Nat := 0x00000010

/-- Bit `VK_SURFACE_TRANSFORM_IDENTITY_BIT_KHR`. -/
def VK_SURFACE_TRANSFORM_IDENTITY_BIT_KHR : Nat := 0x00000001

/-- The preferred surface format of the program: `VK_FORMAT_B8G8R8A8_SRGB` with
`VK_COLOR_SPACE_SRGB_NONLINEAR_KHR`. -/
def preferredFormat : VkSurfaceFormatKHR :=
  ⟨.VK_FORMAT_B8G8R8A8_SRGB, .VK_COLOR_SPACE_SRGB_NONLINEAR_KHR⟩

/-! ## Swapchain negotiation -/

/-- Template `clamp` (lines 30-34): `value < min ? min : value > max ? max : value`. -/
def clamp (value min max : Nat) : Nat :=
  if value < min then min else if value > max then max else value

/-- `GetVulkanPresentationMode` (lines 355-371).  `countResult` and `listResult`
are the results of the two driver queries, `availableModes` the modes the
second query wrote, `outMode` the in/out parameter. -/
def GetVulkanPresentationMode (countResult listResult : VkResult)
    (availableModes : List VkPresentModeKHR) (outMode : VkPresentModeKHR) :
    Except String VkPresentModeKHR :=
  if countResult ≠ .VK_SUCCESS then
    .error "Vulkan: Unable to query present mode count from physical device."
  else if listResult ≠ .VK_SUCCESS then
    .error "Vulkan: Unable to query present modes from physical device."
  else if availableModes.any (fun mode => mode == outMode) then
    .ok outMode
  else
    .ok .VK_PRESENT_MODE_FIFO_KHR

/-- Outcome of running code that may throw or run into undefined behaviour. -/
inductive Outcome (α : Type)
  | returned (a : α)
  | thrown (message : String)
  | undefinedBehaviour
  deriving DecidableEq, Repr

/-- `GetVulkanImageFormat` (lines 373-411).  `countResult` and `listResult` are
the results of the two driver queries and `foundFormats` the vector the
second one filled.  Every returning path assigns both fields of `outFormat`,
so the value it held before does not matter and the new value is returned.
With an empty vector the final `foundFormats[0]` is out of range. -/
def GetVulkanImageFormat (countResult listResult : VkResult)
    (foundFormats : List VkSurfaceFormatKHR) : Outcome VkSurfaceFormatKHR :=
  if countResult ≠ .VK_SUCCESS then
    .thrown "Vulkan: Failed to get Physical Device Surface Formats Count"
  else if listResult ≠ .VK_SUCCESS then
    .thrown "Vulkan: Failed to get Physical Devices Surface Formats"
  else if foundFormats.length = 1
      ∧ foundFormats.head?.map (fun f => f.format) = some .VK_FORMAT_UNDEFINED then
    .returned ⟨.VK_FORMAT_B8G8R8A8_SRGB, .VK_COLOR_SPACE_SRGB_NONLINEAR_KHR⟩
  else
    match foundFormats.find? (fun outerFormat => outerFormat.format == .VK_FORMAT_B8G8R8A8_SRGB) with
    | some outerFormat =>
      match foundFormats.find?
          (fun innerFormat => innerFormat.colorSpace == .VK_COLOR_SPACE_SRGB_NONLINEAR_KHR) with
      | some innerFormat => .returned ⟨outerFormat.format, innerFormat.colorSpace⟩
      | none =>
        match foundFormats.head? with
        | some first => .returned ⟨outerFormat.format, first.colorSpace⟩
        | none => .undefinedBehaviour
    | none =>
      match foundFormats.head? with
      | some first => .returned first
      | none => .undefinedBehaviour

/-- Line 422: `minImageCount + 1 > maxImageCount ? minImageCount : minImageCount + 1`
in `uint32_t` arithmetic. -/
def swapImageCount (surfaceCapabilities : VkSurfaceCapabilitiesKHR) : Nat :=
  if (surfaceCapabilities.minImageCount + 1) % UINT32_SIZE > surfaceCapabilities.maxImageCount then
    surfaceCapabilities.minImageCount
  else
    (surfaceCapabilities.minImageCount + 1) % UINT32_SIZE

/-- Lines 424-431: the extent `size` of the new swapchain, from the requested
window size `(width, height)` (the globals `WIDTH`, `HEIGHT`, converted to
`uint32_t` by the initialiser of `size`). -/
def swapExtent (surfaceCapabilities : VkSurfaceCapabilitiesKHR) (width height : Int) : VkExtent2D :=
  if surfaceCapabilities.currentExtent.width = 0xFFFFFFF then
    { width := clamp (toUInt32 width) surfaceCapabilities.minImageExtent.width
        surfaceCapabilities.maxImageExtent.width
      height := clamp (toUInt32 height) surfaceCapabilities.minImageExtent.height
        surfaceCapabilities.maxImageExtent.height }
  else
    surfaceCapabilities.currentExtent

/-! ## Recorded calls -/

/-- The `VkSwapchainCreateInfoKHR` fields that `CreateVulkanSwapchain` computes. -/
structure VkSwapchainCreateInfoKHR where
  minImageCount : Nat
  imageFormat : VkFormat
  imageColorSpace : VkColorSpaceKHR
  imageExtent : VkExtent2D
  imageUsage : Nat
  preTransform : Nat
  presentMode : VkPresentModeKHR
  oldSwapchain : Handle
  deriving DecidableEq, Repr

/-- Pipeline stages named in a submission. -/
inductive VkPipelineStage
  | VK_PIPELINE_STAGE_TOP_OF_PIPE_BIT
  | VK_PIPELINE_STAGE_COLOR_ATTACHMENT_OUTPUT_BIT
  | VK_PIPELINE_STAGE_BOTTOM_OF_PIPE_BIT
  deriving DecidableEq, Repr

/-- The calls into SDL and Vulkan that the frame loop, the teardown, the
swapchain creation and the creation of the synchronisation objects issue,
with the arguments the program computes for them.  `vkDeviceWaitIdle` is
part of the vocabulary although no function of the source issues it.  The
two assignments of the frame loop to `vkImagesInFlight[imageIndex]` and to
`currentFrame` are recorded as well, so that their place among the calls
can be stated. -/
inductive Call
  | SDL_PollEvent
  | vkWaitForFences (fence : Handle)
  | vkAcquireNextImageKHR (swapchain : Handle) (semaphore : Handle)
  | assignImagesInFlight (imageIndex : Nat) (fence : Handle)
  | vkResetFences (fence : Handle)
  | vkQueueSubmit (waitSemaphore : Handle) (waitStage : VkPipelineStage)
      (commandBuffer : Handle) (signalSemaphore : Handle) (fence : Handle)
  | vkQueuePresentKHR (waitSemaphore : Handle) (swapchain : Handle) (imageIndex : Nat)
  | assignCurrentFrame (value : Nat)
  | vkDeviceWaitIdle
  | SDL_ShowSimpleMessageBox (message : String)
  | vkCreateSwapchainKHR (swapInfo : VkSwapchainCreateInfoKHR)
  | vkCreateSemaphore
  | vkCreateFence (signaled : Bool)
  | vkCreateDevice (queueFamilies : List Nat) (enabledExtensions : List String)
  | vkDestroySemaphore (semaphore : Handle)
  | vkDestroyFence (fence : Handle)
  | vkDestroyCommandPool (commandPool : Handle)
  | vkDestroyFramebuffer (framebuffer : Handle)
  | vkDestroyPipeline (pipeline : Handle)
  | vkDestroyPipelineLayout (pipelineLayout : Handle)
  | vkDestroyRenderPass (renderPass : Handle)
  | vkDestroyImageView (imageView : Handle)
  | vkDestroySwapchainKHR (swapchain : Handle)
  | vkDestroyDevice (device : Handle)
  | vkDestroySurfaceKHR (surface : Handle)
  | vkDestroyDebugUtilsMessengerEXT (messenger : Handle)
  | vkDestroyInstance (vkInstance : Handle)
  deriving DecidableEq, Repr

/-- How a piece of code ended.  `pending` is for the frame loop only: the
recorded answers of the environment are used up and the loop is still
running. -/
inductive Status
  | returned
  | thrown (message : String)
  | undefinedBehaviour
  | pending
  deriving DecidableEq, Repr

/-- Result of running a piece of code that works on variables of type `σ`:
the calls it issued, the values of the variables when it ended, and how it
ended. -/
structure Ran (σ : Type) where
  calls : List Call
  out : σ
  status : Status

/-- Sequential composition: `next` runs only when `first` returned. -/
def Ran.andThen {σ : Type} (first : Ran σ) (next : σ → Ran σ) : Ran σ :=
  match first.status with
  | .returned =>
    let second := next first.out
    { calls := first.calls ++ second.calls, out := second.out, status := second.status }
  | _ => first

/-! ## `CreateVulkanSwapchain` -/

/-- What the driver answers during one call of `CreateVulkanSwapchain`. -/
structure SwapchainEnv where
  capabilitiesResult : VkResult
  surfaceCapabilities : VkSurfaceCapabilitiesKHR
  modeCountResult : VkResult
  modeListResult : VkResult
  availableModes : List VkPresentModeKHR
  formatCountResult : VkResult
  formatListResult : VkResult
  foundFormats : List VkSurfaceFormatKHR
  createResult : VkResult
  createdSwapchain : Handle

/-- The three out-parameters of `CreateVulkanSwapchain`. -/
structure SwapchainOut where
  outSwapchain : Handle
  outSurfaceFormat : VkSurfaceFormatKHR
  outExtent : VkExtent2D
  deriving DecidableEq, Repr

/-- Lines 433-446: the usage flags, or the message thrown.  The only requested
usage is the color-attachment bit.  The thrown `std::exception` is built from
the string literal plus the integer `requestedUsage`, that is, from the
literal with its first `requestedUsage` characters skipped. -/
def swapUsageFlags (surfaceCapabilities : VkSurfaceCapabilitiesKHR) : Except String Nat :=
  let requestedUsage := VK_IMAGE_USAGE_COLOR_ATTACHMENT_BIT
  let usageFlags := requestedUsage
  let imageUsage := requestedUsage &&& surfaceCapabilities.supportedUsageFlags
  if imageUsage ≠ requestedUsage then
    .error ("Vulkan: unsupported image usage flag:".drop requestedUsage)
  else
    .ok (usageFlags ||| requestedUsage)

/-- Lines 448-455: the pre-transform. -/
def swapTransform (surfaceCapabilities : VkSurfaceCapabilitiesKHR) : Nat :=
  if surfaceCapabilities.supportedTransforms &&& VK_SURFACE_TRANSFORM_IDENTITY_BIT_KHR ≠ 0 then
    VK_SURFACE_TRANSFORM_IDENTITY_BIT_KHR
  else
    surfaceCapabilities.currentTransform

/-- `CreateVulkanSwapchain` (lines 413-491), with the requested window size
`(width, height)` (the globals `WIDTH`, `HEIGHT`) and the out-parameters
`out` as the caller holds them on entry. -/
def CreateVulkanSwapchain (env : SwapchainEnv) (width height : Int) (out : SwapchainOut) :
    Ran SwapchainOut :=
  if env.capabilitiesResult ≠ .VK_SUCCESS then
    ⟨[], out, .thrown "Vulkan: Unable to acquire surface capabilities"⟩
  else
    match GetVulkanPresentationMode env.modeCountResult env.modeListResult env.availableModes
        .VK_PRESENT_MODE_FIFO_RELAXED_KHR with
    | .error message => ⟨[], out, .thrown message⟩
    | .ok presentMode =>
      let swapImageCount := swapImageCount env.surfaceCapabilities
      let size := swapExtent env.surfaceCapabilities width height
      match swapUsageFlags env.surfaceCapabilities with
      | .error message => ⟨[], out, .thrown message⟩
      | .ok usageFlags =>
        let transform := swapTransform env.surfaceCapabilities
        match GetVulkanImageFormat env.formatCountResult env.formatListResult env.foundFormats with
        | .thrown message => ⟨[], out, .thrown message⟩
        | .undefinedBehaviour => ⟨[], out, .undefinedBehaviour⟩
        | .returned imageFormat =>
          let oldSwapchain := out.outSwapchain
          let swapInfo : VkSwapchainCreateInfoKHR :=
            { minImageCount := swapImageCount
              imageFormat := imageFormat.format
              imageColorSpace := imageFormat.colorSpace
              imageExtent := size
              imageUsage := usageFlags
              preTransform := transform
              presentMode := presentMode
              oldSwapchain := VK_NULL_HANDLE }
          let destroyed : List Call :=
            if oldSwapchain ≠ VK_NULL_HANDLE then [.vkDestroySwapchainKHR oldSwapchain] else []
          if env.createResult ≠ .VK_SUCCESS then
            ⟨destroyed ++ [.vkCreateSwapchainKHR swapInfo], out,
              .thrown "Vulkan: Failed to create Swapchain"⟩
          else
            ⟨destroyed ++ [.vkCreateSwapchainKHR swapInfo],
              { outSwapchain := env.createdSwapchain
                outSurfaceFormat := imageFormat
                outExtent := size },
              .returned⟩

/-! ## `CreateVulkanSyncObjects` -/

/-- What the driver answers to the creation calls of `CreateVulkanSyncObjects`
for frame slot `i`: result code and the handle written. -/
structure SyncEnv where
  imageReady : Nat → VkResult × Handle
  renderFinished : Nat → VkResult × Handle
  inFlight : Nat → VkResult × Handle

/-- The four output vectors of `CreateVulkanSyncObjects`. -/
structure SyncObjects where
  outImageReadySemaphores : List Handle
  outRenderFinishedSemaphores : List Handle
  outFlightFences : List Handle
  outImagesInFlight : List Handle
  deriving DecidableEq, Repr

/-- Lines 795-799 for one value of `i`: the three creation calls, joined by
a short-circuiting `||`, and the `throw`. -/
def createSyncObjectsAt (env : SyncEnv) (i : Nat) (out : SyncObjects) : Ran SyncObjects :=
  let message := "failed to create synchronization objects for a frame!"
  let out1 := { out with
    outImageReadySemaphores := out.outImageReadySemaphores.set i (env.imageReady i).2 }
  if (env.imageReady i).1 ≠ .VK_SUCCESS then
    ⟨[.vkCreateSemaphore], out1, .thrown message⟩
  else
    let out2 := { out1 with
      outRenderFinishedSemaphores := out1.outRenderFinishedSemaphores.set i (env.renderFinished i).2 }
    if (env.renderFinished i).1 ≠ .VK_SUCCESS then
      ⟨[.vkCreateSemaphore, .vkCreateSemaphore], out2, .thrown message⟩
    else
      let out3 := { out2 with outFlightFences := out2.outFlightFences.set i (env.inFlight i).2 }
      if (env.inFlight i).1 ≠ .VK_SUCCESS then
        ⟨[.vkCreateSemaphore, .vkCreateSemaphore, .vkCreateFence true], out3, .thrown message⟩
      else
        ⟨[.vkCreateSemaphore, .vkCreateSemaphore, .vkCreateFence true], out3, .returned⟩

/-- The loop of lines 795-800, from index `i`, with `remaining` passes to go. -/
def createSyncObjectsFrom (env : SyncEnv) : Nat → Nat → SyncObjects → Ran SyncObjects
  | 0, _, out => ⟨[], out, .returned⟩
  | remaining + 1, i, out =>
    (createSyncObjectsAt env i out).andThen (createSyncObjectsFrom env remaining (i + 1))

/-- `CreateVulkanSyncObjects` (lines 778-801): the four vectors are cleared
and resized, then the objects of each frame slot are created. -/
def CreateVulkanSyncObjects (env : SyncEnv) (swapChainImages : List Handle)
    (_out : SyncObjects) : Ran SyncObjects :=
  createSyncObjectsFrom env MAX_FRAMES_IN_FLIGHT 0
    { outImageReadySemaphores := List.replicate MAX_FRAMES_IN_FLIGHT VK_NULL_HANDLE
      outRenderFinishedSemaphores := List.replicate MAX_FRAMES_IN_FLIGHT VK_NULL_HANDLE
      outFlightFences := List.replicate MAX_FRAMES_IN_FLIGHT VK_NULL_HANDLE
      outImagesInFlight := List.replicate swapChainImages.length VK_NULL_HANDLE }

/-! ## `main` -/

/-- The local variables of `main` that the frame loop and the teardown use. -/
structure MainState where
  isRunning : Bool
  vkInstance : Handle
  vkDebugMessenger : Handle
  surface : Handle
  vkPhysicalDevice : Handle
  vkDevice : Handle
  vkSwapchain : Handle
  vkSurfaceFormat : VkSurfaceFormatKHR
  vkExtent : VkExtent2D
  vkRenderPass : Handle
  vkPipelineLayout : Handle
  vkPipeline : Handle
  vkCommandPool : Handle
  vkChainImages : List Handle
  vkChainImageViews : List Handle
  vkChainFramebuffers : List Handle
  vkCommandBuffers : List Handle
  vkImageAvailableSemaphores : List Handle
  vkRenderFinishedSemaphores : List Handle
  vkInFlightFences : List Handle
  vkImagesInFlight : List Handle
  currentFrame : Nat
  deriving DecidableEq, Repr

/-- The calls of the `try` block before the loop whose bodies are not
embedded; each is represented by what it leaves in the variables of `main`
and by whether it throws. -/
inductive StartupStep
  | GetAndCheckVulkanAPISupport
  | CreateVulkanInstance
  | CreateVulkanSurface
  | GetVulkanPhysicalDevice
  | CreateVulkanLogicalDevice
  | GetVulkanSwapchainImageHandles
  | CreateVulkanImageViews
  | CreateVulkanRenderPass
  | CreateVulkanGraphicsPipeline
  | CreateVulkanFramebuffers
  | CreateVulkanCommandPool
  | CreateVulkanCommandBuffers
  deriving DecidableEq, Repr

/-- What the platform and the driver answer during startup.  `thrown step` is
the message of the exception `step` throws, if it throws; the handles are
what the calls write into their out-parameters; `vkSurfaceFormat` and
`vkExtent` are the contents of the two uninitialised locals. -/
structure StartupEnv where
  thrown : StartupStep → Option String
  vkInstance : Handle
  vkDebugMessenger : Handle
  surface : Handle
  vkPhysicalDevice : Handle
  vkDevice : Handle
  vkSurfaceFormat : VkSurfaceFormatKHR
  vkExtent : VkExtent2D
  swapchain : SwapchainEnv
  imageCount : Nat
  chainImage : Nat → Handle
  imageView : Nat → Handle
  vkRenderPass : Handle
  vkPipelineLayout : Handle
  vkPipeline : Handle
  framebuffer : Nat → Handle
  vkCommandPool : Handle
  commandBuffer : Nat → Handle
  sync : SyncEnv

/-- Lines 806-832: the locals of `main` as declared. -/
def initialState (env : StartupEnv) : MainState :=
  { isRunning := true
    vkInstance := VK_NULL_HANDLE
    vkDebugMessenger := VK_NULL_HANDLE
    surface := VK_NULL_HANDLE
    vkPhysicalDevice := VK_NULL_HANDLE
    vkDevice := VK_NULL_HANDLE
    vkSwapchain := VK_NULL_HANDLE
    vkSurfaceFormat := env.vkSurfaceFormat
    vkExtent := env.vkExtent
    vkRenderPass := VK_NULL_HANDLE
    vkPipelineLayout := VK_NULL_HANDLE
    vkPipeline := VK_NULL_HANDLE
    vkCommandPool := VK_NULL_HANDLE
    vkChainImages := []
    vkChainImageViews := []
    vkChainFramebuffers := []
    vkCommandBuffers := []
    vkImageAvailableSemaphores := []
    vkRenderFinishedSemaphores := []
    vkInFlightFences := []
    vkImagesInFlight := []
    currentFrame := 0 }

/-- A startup call whose body is not embedded: it leaves `update s` in the
variables and throws when the environment says so.  A call that throws
before it has written an out-parameter is the case in which the environment
supplies the value the parameter had (null, or zero images). -/
def startupStep (env : StartupEnv) (step : StartupStep) (update : MainState → MainState)
    (s : MainState) : Ran MainState :=
  match env.thrown step with
  | some message => ⟨[], update s, .thrown message⟩
  | none => ⟨[], update s, .returned⟩

/-- The call of `CreateVulkanSwapchain` in `main` (line 861). -/
def startupSwapchain (env : StartupEnv) (s : MainState) : Ran MainState :=
  let ran := CreateVulkanSwapchain env.swapchain WIDTH HEIGHT
    ⟨s.vkSwapchain, s.vkSurfaceFormat, s.vkExtent⟩
  { calls := ran.calls
    out := { s with
      vkSwapchain := ran.out.outSwapchain
      vkSurfaceFormat := ran.out.outSurfaceFormat
      vkExtent := ran.out.outExtent }
    status := ran.status }

/-- The call of `CreateVulkanSyncObjects` in `main` (line 877). -/
def startupSyncObjects (env : StartupEnv) (s : MainState) : Ran MainState :=
  let ran := CreateVulkanSyncObjects env.sync s.vkChainImages
    ⟨s.vkImageAvailableSemaphores, s.vkRenderFinishedSemaphores, s.vkInFlightFences,
      s.vkImagesInFlight⟩
  { calls := ran.calls
    out := { s with
      vkImageAvailableSemaphores := ran.out.outImageReadySemaphores
      vkRenderFinishedSemaphores := ran.out.outRenderFinishedSemaphores
      vkInFlightFences := ran.out.outFlightFences
      vkImagesInFlight := ran.out.outImagesInFlight }
    status := ran.status }

/-- Lines 842-877: the calls of the `try` block before the loop, in order.
`GetVulkanExtensions`, `GetVulkanLayerSupport` and
`SetupVulkanDebugMessengerCallback` contain no `throw`.  The functions that
fill a vector clear it and resize it to the size of their input vector. -/
def startup (env : StartupEnv) (s : MainState) : Ran MainState :=
  (startupStep env .GetAndCheckVulkanAPISupport id s).andThen fun s =>
  (startupStep env .CreateVulkanInstance
    (fun s => { s with vkInstance := env.vkInstance }) s).andThen fun s =>
  (Ran.mk [] { s with vkDebugMessenger := env.vkDebugMessenger } .returned).andThen fun s =>
  (startupStep env .CreateVulkanSurface
    (fun s => { s with surface := env.surface }) s).andThen fun s =>
  (startupStep env .GetVulkanPhysicalDevice
    (fun s => { s with vkPhysicalDevice := env.vkPhysicalDevice }) s).andThen fun s =>
  (startupStep env .CreateVulkanLogicalDevice
    (fun s => { s with vkDevice := env.vkDevice }) s).andThen fun s =>
  (startupSwapchain env s).andThen fun s =>
  (startupStep env .GetVulkanSwapchainImageHandles
    (fun s => { s with vkChainImages := (List.range env.imageCount).map env.chainImage })
    s).andThen fun s =>
  (startupStep env .CreateVulkanImageViews
    (fun s => { s with
      vkChainImageViews := (List.range s.vkChainImages.length).map env.imageView })
    s).andThen fun s =>
  (startupStep env .CreateVulkanRenderPass
    (fun s => { s with vkRenderPass := env.vkRenderPass }) s).andThen fun s =>
  (startupStep env .CreateVulkanGraphicsPipeline
    (fun s => { s with vkPipelineLayout := env.vkPipelineLayout, vkPipeline := env.vkPipeline })
    s).andThen fun s =>
  (startupStep env .CreateVulkanFramebuffers
    (fun s => { s with
      vkChainFramebuffers := (List.range s.vkChainImageViews.length).map env.framebuffer })
    s).andThen fun s =>
  (startupStep env .CreateVulkanCommandPool
    (fun s => { s with vkCommandPool := env.vkCommandPool }) s).andThen fun s =>
  (startupStep env .CreateVulkanCommandBuffers
    (fun s => { s with
      vkCommandBuffers := (List.range s.vkChainFramebuffers.length).map env.commandBuffer })
    s).andThen fun s =>
  startupSyncObjects env s

/-- The `type` of the `SDL_Event` after `SDL_PollEvent`. -/
inductive SDL_EventType
  | SDL_QUIT
  | other (code : Nat)
  deriving DecidableEq, Repr

/-- What SDL and the driver answer during one iteration of the frame loop.
`imageIndex` is the content of the variable `imageIndex` after
`vkAcquireNextImageKHR`. -/
structure FrameInput where
  eventType : SDL_EventType
  fenceWaitResult : VkResult
  acquireResult : VkResult
  imageIndex : Nat
  imageFenceWaitResult : VkResult
  resetResult : VkResult
  submitResult : VkResult
  presentResult : VkResult
  deriving DecidableEq, Repr

/-- Lines 881-938: the body of the `while` loop.  Only the result of
`vkQueueSubmit` is inspected; the other results are dropped. -/
def drawFrame (input : FrameInput) (s : MainState) : Ran MainState :=
  let s := if input.eventType = .SDL_QUIT then { s with isRunning := false } else s
  match s.vkInFlightFences[s.currentFrame]? with
  | none => ⟨[.SDL_PollEvent], s, .undefinedBehaviour⟩
  | some inFlightFence =>
    let calls := [Call.SDL_PollEvent, .vkWaitForFences inFlightFence]
    match s.vkImageAvailableSemaphores[s.currentFrame]? with
    | none => ⟨calls, s, .undefinedBehaviour⟩
    | some imageAvailable =>
      let calls := calls ++ [.vkAcquireNextImageKHR s.vkSwapchain imageAvailable]
      let imageIndex := input.imageIndex
      match s.vkImagesInFlight[imageIndex]? with
      | none => ⟨calls, s, .undefinedBehaviour⟩
      | some imageFence =>
        let calls := calls ++
          (if imageFence ≠ VK_NULL_HANDLE then [.vkWaitForFences imageFence] else []) ++
          [.assignImagesInFlight imageIndex inFlightFence]
        let s := { s with vkImagesInFlight := s.vkImagesInFlight.set imageIndex inFlightFence }
        match s.vkCommandBuffers[imageIndex]? with
        | none => ⟨calls, s, .undefinedBehaviour⟩
        | some commandBuffer =>
          match s.vkRenderFinishedSemaphores[s.currentFrame]? with
          | none => ⟨calls, s, .undefinedBehaviour⟩
          | some renderFinished =>
            let calls := calls ++
              [.vkResetFences inFlightFence,
               .vkQueueSubmit imageAvailable .VK_PIPELINE_STAGE_COLOR_ATTACHMENT_OUTPUT_BIT
                 commandBuffer renderFinished inFlightFence]
            if input.submitResult ≠ .VK_SUCCESS then
              ⟨calls, s, .thrown "failed to submit draw command buffer!"⟩
            else
              ⟨calls ++ [.vkQueuePresentKHR renderFinished s.vkSwapchain imageIndex,
                  .assignCurrentFrame ((s.currentFrame + 1) % MAX_FRAMES_IN_FLIGHT)],
                { s with currentFrame := (s.currentFrame + 1) % MAX_FRAMES_IN_FLIGHT },
                .returned⟩

/-- Lines 879-939: `while (isRunning)`, one `FrameInput` per iteration. -/
def frameLoop : List FrameInput → MainState → Ran MainState
  | [], s => if s.isRunning then ⟨[], s, .pending⟩ else ⟨[], s, .returned⟩
  | input :: rest, s =>
    if s.isRunning then (drawFrame input s).andThen (frameLoop rest) else ⟨[], s, .returned⟩

/-- Lines 948-950 for one value of `i`. -/
def destroySyncObjectsAt (i : Nat) (s : MainState) : Ran MainState :=
  match s.vkRenderFinishedSemaphores[i]? with
  | none => ⟨[], s, .undefinedBehaviour⟩
  | some renderFinished =>
    match s.vkImageAvailableSemaphores[i]? with
    | none => ⟨[.vkDestroySemaphore renderFinished], s, .undefinedBehaviour⟩
    | some imageAvailable =>
      match s.vkInFlightFences[i]? with
      | none =>
        ⟨[.vkDestroySemaphore renderFinished, .vkDestroySemaphore imageAvailable], s,
          .undefinedBehaviour⟩
      | some inFlightFence =>
        ⟨[.vkDestroySemaphore renderFinished, .vkDestroySemaphore imageAvailable,
          .vkDestroyFence inFlightFence], s, .returned⟩

/-- The loop of lines 946-951, from index `i`, with `remaining` passes to go. -/
def destroySyncObjectsFrom : Nat → Nat → MainState → Ran MainState
  | 0, _, s => ⟨[], s, .returned⟩
  | remaining + 1, i, s =>
    (destroySyncObjectsAt i s).andThen (destroySyncObjectsFrom remaining (i + 1))

/-- Lines 946-969: everything after the `catch` block up to `return 0`.  The
wrapper `_vkDestroyDebugUtilsMessengerEXT` is recorded under the name of the
entry point it forwards to. -/
def teardown (s : MainState) : Ran MainState :=
  (destroySyncObjectsFrom MAX_FRAMES_IN_FLIGHT 0 s).andThen fun s =>
    ⟨[Call.vkDestroyCommandPool s.vkCommandPool]
      ++ s.vkChainFramebuffers.map Call.vkDestroyFramebuffer
      ++ [.vkDestroyPipeline s.vkPipeline, .vkDestroyPipelineLayout s.vkPipelineLayout,
          .vkDestroyRenderPass s.vkRenderPass]
      ++ s.vkChainImageViews.map Call.vkDestroyImageView
      ++ [.vkDestroySwapchainKHR s.vkSwapchain, .vkDestroyDevice s.vkDevice,
          .vkDestroySurfaceKHR s.surface, .vkDestroyDebugUtilsMessengerEXT s.vkDebugMessenger,
          .vkDestroyInstance s.vkInstance],
      s, .returned⟩

/-- What the platform and the driver answer during one run of `main`. -/
structure MainEnv where
  startup : StartupEnv
  frames : List FrameInput

/-- Lines 841-939: the `try` block. -/
def tryBlock (env : MainEnv) : Ran MainState :=
  (startup env.startup (initialState env.startup)).andThen (frameLoop env.frames)

/-- The run of `main` from the first statement of the `try` block (lines
841-971).  The value is the exit status, present when `main` returned. -/
def main (env : MainEnv) : Ran (Option Int) :=
  let body := tryBlock env
  match body.status with
  | .returned =>
    let after := teardown body.out
    ⟨body.calls ++ after.calls, if after.status = .returned then some 0 else none, after.status⟩
  | .thrown message =>
    let after := teardown body.out
    ⟨body.calls ++ [.SDL_ShowSimpleMessageBox message] ++ after.calls,
      if after.status = .returned then some 0 else none, after.status⟩
  | .undefinedBehaviour => ⟨body.calls, none, .undefinedBehaviour⟩
  | .pending => ⟨body.calls, none, .pending⟩

/-! ## Sample inputs -/

/-- Capabilities with `minImageCount = 2`, `maxImageCount = 3` and current
extent `800 x 600`. -/
def sampleCapabilities : VkSurfaceCapabilitiesKHR :=
  { minImageCount := 2
    maxImageCount := 3
    currentExtent := ⟨800, 600⟩
    minImageExtent := ⟨1, 1⟩
    maxImageExtent := ⟨4096, 4096⟩
    supportedTransforms := 1
    currentTransform := 1
    supportedUsageFlags := 0x1F }

/-- A driver that offers FIFO and MAILBOX (not FIFO_RELAXED), two formats, and
creates swapchain `7`. -/
def sampleSwapchainEnv : SwapchainEnv :=
  { capabilitiesResult := .VK_SUCCESS
    surfaceCapabilities := sampleCapabilities
    modeCountResult := .VK_SUCCESS
    modeListResult := .VK_SUCCESS
    availableModes := [.VK_PRESENT_MODE_FIFO_KHR, .VK_PRESENT_MODE_MAILBOX_KHR]
    formatCountResult := .VK_SUCCESS
    formatListResult := .VK_SUCCESS
    foundFormats := [⟨.VK_FORMAT_B8G8R8A8_UNORM, .VK_COLOR_SPACE_SRGB_NONLINEAR_KHR⟩,
      ⟨.VK_FORMAT_B8G8R8A8_SRGB, .VK_COLOR_SPACE_SRGB_NONLINEAR_KHR⟩]
    createResult := .VK_SUCCESS
    createdSwapchain := 7 }

/-- The same driver reporting `maxImageCount = 0` (no upper bound). -/
def unboundedSwapchainEnv : SwapchainEnv :=
  { sampleSwapchainEnv with
    surfaceCapabilities := { sampleCapabilities with maxImageCount := 0 } }

/-- Out-parameters of a first call: no previous swapchain. -/
def sampleSwapchainOut : SwapchainOut :=
  ⟨VK_NULL_HANDLE, ⟨.VK_FORMAT_UNDEFINED, .VK_COLOR_SPACE_SRGB_NONLINEAR_KHR⟩, ⟨0, 0⟩⟩

/-- The creation request computed for `sampleSwapchainEnv`. -/
def sampleSwapInfo : VkSwapchainCreateInfoKHR :=
  { minImageCount := 3
    imageFormat := .VK_FORMAT_B8G8R8A8_SRGB
    imageColorSpace := .VK_COLOR_SPACE_SRGB_NONLINEAR_KHR
    imageExtent := ⟨800, 600⟩
    imageUsage := 0x10
    preTransform := 1
    presentMode := .VK_PRESENT_MODE_FIFO_KHR
    oldSwapchain := VK_NULL_HANDLE }

/-- A format list without the preferred pair in which one entry has the
preferred pixel format and another the preferred color space. -/
def mixedFormats : List VkSurfaceFormatKHR :=
  [⟨.VK_FORMAT_R8G8B8A8_UNORM, .VK_COLOR_SPACE_SRGB_NONLINEAR_KHR⟩,
   ⟨.VK_FORMAT_B8G8R8A8_SRGB, .VK_COLOR_SPACE_DISPLAY_P3_NONLINEAR_EXT⟩]

/-- A format list in which no entry has the preferred pixel format. -/
def foreignFormats : List VkSurfaceFormatKHR :=
  [⟨.VK_FORMAT_R8G8B8A8_UNORM, .VK_COLOR_SPACE_DISPLAY_P3_NONLINEAR_EXT⟩,
   ⟨.VK_FORMAT_R16G16B16A16_SFLOAT, .VK_COLOR_SPACE_SRGB_NONLINEAR_KHR⟩]

/-- The list is a single entry whose pixel format is `VK_FORMAT_UNDEFINED`. -/
def SingleUndefined (foundFormats : List VkSurfaceFormatKHR) : Prop :=
  ∃ colorSpace, foundFormats = [⟨.VK_FORMAT_UNDEFINED, colorSpace⟩]

/-- Every call of the iteration reports success. -/
def FrameInput.AllSucceed (input : FrameInput) : Prop :=
  input.fenceWaitResult = .VK_SUCCESS ∧ input.acquireResult = .VK_SUCCESS
    ∧ input.imageFenceWaitResult = .VK_SUCCESS ∧ input.resetResult = .VK_SUCCESS
    ∧ input.submitResult = .VK_SUCCESS ∧ input.presentResult = .VK_SUCCESS

/-- An iteration in which every call succeeds and image `imageIndex` is
acquired. -/
def sampleFrame (eventType : SDL_EventType) (imageIndex : Nat) : FrameInput :=
  { eventType := eventType
    fenceWaitResult := .VK_SUCCESS
    acquireResult := .VK_SUCCESS
    imageIndex := imageIndex
    imageFenceWaitResult := .VK_SUCCESS
    resetResult := .VK_SUCCESS
    submitResult := .VK_SUCCESS
    presentResult := .VK_SUCCESS }

/-- A startup in which nothing throws, with three swapchain images. -/
def sampleStartupEnv : StartupEnv :=
  { thrown := fun _ => none
    vkInstance := 1
    vkDebugMessenger := 2
    surface := 3
    vkPhysicalDevice := 4
    vkDevice := 5
    vkSurfaceFormat := ⟨.VK_FORMAT_UNDEFINED, .VK_COLOR_SPACE_SRGB_NONLINEAR_KHR⟩
    vkExtent := ⟨0, 0⟩
    swapchain := sampleSwapchainEnv
    imageCount := 3
    chainImage := fun i => 100 + i
    imageView := fun i => 200 + i
    vkRenderPass := 8
    vkPipelineLayout := 9
    vkPipeline := 10
    framebuffer := fun i => 300 + i
    vkCommandPool := 11
    commandBuffer := fun i => 400 + i
    sync :=
      { imageReady := fun i => (.VK_SUCCESS, 500 + i)
        renderFinished := fun i => (.VK_SUCCESS, 600 + i)
        inFlight := fun i => (.VK_SUCCESS, 700 + i) } }

/-- The variables of `main` when the loop is entered under `sampleStartupEnv`. -/
def sampleLoopState : MainState :=
  (startup sampleStartupEnv (initialState sampleStartupEnv)).out

/-- The loop state after image `1` was claimed by frame slot `1`: entry `1` of
the in-flight table holds fence `701`. -/
def busyLoopState : MainState :=
  { sampleLoopState with vkImagesInFlight := [0, 701, 0] }

/-- The iteration of `sampleFrame` with image `0`, except that the acquisition
reports a stale surface. -/
def staleFrame : FrameInput :=
  { sampleFrame (.other 0) 0 with acquireResult := .VK_ERROR_OUT_OF_DATE_KHR }

/-- The iteration of `sampleFrame` with image `0`, except that the present
reports a lost device. -/
def lostPresentFrame : FrameInput :=
  { sampleFrame (.other 0) 0 with presentResult := .VK_ERROR_DEVICE_LOST }

/-- The iteration of `sampleFrame` with image `0`, except that the submit
reports a lost device. -/
def lostSubmitFrame : FrameInput :=
  { sampleFrame (.other 0) 0 with submitResult := .VK_ERROR_DEVICE_LOST }

/-- A run of `main` that quits in its first iteration. -/
def quitRun : MainEnv := ⟨sampleStartupEnv, [sampleFrame .SDL_QUIT 0]⟩

/-- A run of `main` whose second iteration fails to submit; two more
iterations are recorded after it. -/
def lostSubmitRun : MainEnv :=
  ⟨sampleStartupEnv,
    [sampleFrame (.other 0) 0] ++ lostSubmitFrame :: [sampleFrame (.other 0) 1,
      sampleFrame .SDL_QUIT 2]⟩

/-- The run of the startup calls of `main`. -/
def loopEntry (env : MainEnv) : Ran MainState :=
  startup env.startup (initialState env.startup)

/-- The run of the frame loop of `main` over the iterations `before`. -/
def loopAfter (env : MainEnv) (before : List FrameInput) : Ran MainState :=
  frameLoop before (loopEntry env).out

/-! ## Physical and logical device -/

/-- Bit `VK_QUEUE_GRAPHICS_BIT`. -/
def VK_QUEUE_GRAPHICS_BIT : Nat := 0x00000001

/-- Macro `VK_KHR_SWAPCHAIN_EXTENSION_NAME`. -/
def VK_KHR_SWAPCHAIN_EXTENSION_NAME : String := "VK_KHR_swapchain"

/-- One queue family of an adapter: the two fields of its
`VkQueueFamilyProperties` that are read, and what
`vkGetPhysicalDeviceSurfaceSupportKHR` leaves in `presentSupport` for it. -/
structure QueueFamily where
  queueCount : Nat
  queueFlags : Nat
  presentSupport : Bool
  deriving DecidableEq, Repr

/-- A physical adapter as the driver describes it: its handle, its queue
families in index order, and the names of its device extensions. -/
structure PhysicalDevice where
  handle : Handle
  queueFamilies : List QueueFamily
  extensions : List String
  deriving DecidableEq, Repr

/-- Struct `QueueFamilyIndices` (lines 36-42). -/
structure QueueFamilyIndices where
  graphicsFamily : Option Nat
  presentFamily : Option Nat
  deriving DecidableEq, Repr

/-- Member `isComplete`. -/
def QueueFamilyIndices.isComplete (indices : QueueFamilyIndices) : Bool :=
  indices.graphicsFamily.isSome && indices.presentFamily.isSome

/-- The loop of lines 228-242 of `GetVulkanQueueFamilies`, from family index
`i` over the families not yet visited. -/
def queueFamiliesFrom : List QueueFamily → Nat → QueueFamilyIndices → QueueFamilyIndices
  | [], _, indices => indices
  | family :: rest, i, indices =>
    let indices :=
      if family.queueCount > 0 ∧ family.queueFlags &&& VK_QUEUE_GRAPHICS_BIT ≠ 0 then
        { indices with graphicsFamily := some i }
      else indices
    let indices :=
      if family.presentSupport then { indices with presentFamily := some i } else indices
    if indices.isComplete then indices else queueFamiliesFrom rest (i + 1) indices

/-- `GetVulkanQueueFamilies` (lines 217-244). -/
def GetVulkanQueueFamilies (device : PhysicalDevice) : QueueFamilyIndices :=
  queueFamiliesFrom device.queueFamilies 0 ⟨none, none⟩

/-- `IsVulkanDeviceCompatible` (lines 246-250). -/
def IsVulkanDeviceCompatible (device : PhysicalDevice) : Bool :=
  (GetVulkanQueueFamilies device).isComplete

/-- `GetVulkanPhysicalDevice` (lines 252-281) on the adapters the driver
enumerates; `outDevice` is the in/out parameter. -/
def GetVulkanPhysicalDevice (physicalDevices : List PhysicalDevice) (outDevice : Handle) :
    Ran Handle :=
  if physicalDevices.length = 0 then
    ⟨[], outDevice, .thrown "Vulkan: No Physical Device (GPU) Found."⟩
  else
    let outDevice :=
      match physicalDevices.find? IsVulkanDeviceCompatible with
      | some physicalDevice => physicalDevice.handle
      | none => outDevice
    if outDevice = VK_NULL_HANDLE then
      ⟨[], outDevice, .thrown "Vulkan: Unable to fin a compatible GPU"⟩
    else
      ⟨[], outDevice, .returned⟩

/-- The adapter has a queue family with at least one queue that supports
graphics, and a queue family, possibly the same, that supports presentation
to the surface. -/
def HasGraphicsAndPresent (device : PhysicalDevice) : Prop :=
  (∃ family ∈ device.queueFamilies,
      0 < family.queueCount ∧ family.queueFlags &&& VK_QUEUE_GRAPHICS_BIT ≠ 0)
    ∧ (∃ family ∈ device.queueFamilies, family.presentSupport = true)

/-- What the driver answers during one call of `CreateVulkanLogicalDevice`. -/
structure LogicalDeviceEnv where
  extensionCountResult : VkResult
  extensionListResult : VkResult
  createResult : VkResult
  createdDevice : Handle
  graphicsQueue : Handle
  presentQueue : Handle

/-- The three out-parameters of `CreateVulkanLogicalDevice`. -/
structure LogicalDeviceOut where
  outLogicalDevice : Handle
  outGraphicsQueue : Handle
  outPresentQueue : Handle
  deriving DecidableEq, Repr

/-- The `std::set` of the two family indices, in increasing order. -/
def uniqueQueueFamilies (graphicsFamily presentFamily : Nat) : List Nat :=
  if graphicsFamily = presentFamily then [graphicsFamily]
  else if graphicsFamily < presentFamily then [graphicsFamily, presentFamily]
  else [presentFamily, graphicsFamily]

/-- `CreateVulkanLogicalDevice` (lines 283-343).  `value()` on an empty
`std::optional` throws `std::bad_optional_access`.  The comparison of the
numbers of requested and found extensions (line 314) only prints. -/
def CreateVulkanLogicalDevice (env : LogicalDeviceEnv) (physicalDevice : PhysicalDevice)
    (out : LogicalDeviceOut) : Ran LogicalDeviceOut :=
  let indices := GetVulkanQueueFamilies physicalDevice
  match indices.graphicsFamily, indices.presentFamily with
  | some graphicsFamily, some presentFamily =>
    if env.extensionCountResult ≠ .VK_SUCCESS then
      ⟨[], out, .thrown "Vulkan: Unable to acquire device extension property count"⟩
    else if env.extensionListResult ≠ .VK_SUCCESS then
      ⟨[], out, .thrown "Vulkan: Unable to acquire device extension properties"⟩
    else
      let devicePropertiesNames := physicalDevice.extensions.filter
        (fun extensionName => extensionName == VK_KHR_SWAPCHAIN_EXTENSION_NAME)
      let create := Call.vkCreateDevice (uniqueQueueFamilies graphicsFamily presentFamily)
        devicePropertiesNames
      if env.createResult ≠ .VK_SUCCESS then
        ⟨[create], out, .thrown "Vulkan: Failed To create logical device"⟩
      else
        ⟨[create], ⟨env.createdDevice, env.graphicsQueue, env.presentQueue⟩, .returned⟩
  | _, _ => ⟨[], out, .thrown "Bad optional access"⟩

/-- The call is the error notification of `main`. -/
def isNotification : Call → Bool
  | .SDL_ShowSimpleMessageBox _ => true
  | _ => false

/-- An adapter with one family for graphics and another for presentation, and
without the swapchain extension. -/
def bareAdapter : PhysicalDevice :=
  { handle := 4
    queueFamilies := [⟨1, 0x1, false⟩, ⟨1, 0x4, true⟩]
    extensions := ["VK_KHR_maintenance1"] }

/-- An adapter that cannot present. -/
def computeAdapter : PhysicalDevice :=
  { handle := 3
    queueFamilies := [⟨2, 0x3, false⟩]
    extensions := [] }

/-- A driver that answers every call of `CreateVulkanLogicalDevice` with
success. -/
def sampleLogicalDeviceEnv : LogicalDeviceEnv :=
  { extensionCountResult := .VK_SUCCESS
    extensionListResult := .VK_SUCCESS
    createResult := .VK_SUCCESS
    createdDevice := 5
    graphicsQueue := 12
    presentQueue := 13 }

/-- The sample driver on a surface that does not support the color-attachment
usage. -/
def noAttachmentSwapchainEnv : SwapchainEnv :=
  { sampleSwapchainEnv with
    surfaceCapabilities := { sampleCapabilities with supportedUsageFlags := 0x0F } }

/-- Out-parameters of a call that replaces swapchain `7`. -/
def previousSwapchainOut : SwapchainOut :=
  ⟨7, ⟨.VK_FORMAT_B8G8R8A8_SRGB, .VK_COLOR_SPACE_SRGB_NONLINEAR_KHR⟩, ⟨800, 600⟩⟩

/-- The sample driver failing to create the swapchain. -/
def failingCreateSwapchainEnv : SwapchainEnv :=
  { sampleSwapchainEnv with createResult := .VK_ERROR_OUT_OF_DEVICE_MEMORY }

/-- The sample driver on a surface whose current extent is the all-ones
value in both components. -/
def sentinelSwapchainEnv : SwapchainEnv :=
  { sampleSwapchainEnv with
    surfaceCapabilities := { sampleCapabilities with currentExtent := ⟨0xFFFFFFFF, 0xFFFFFFFF⟩ } }

/-- A format list in which one entry has the preferred pixel format and no
entry the preferred color space. -/
def wideGamutFormats : List VkSurfaceFormatKHR :=
  [⟨.VK_FORMAT_R16G16B16A16_SFLOAT, .VK_COLOR_SPACE_HDR10_ST2084_EXT⟩,
   ⟨.VK_FORMAT_B8G8R8A8_SRGB, .VK_COLOR_SPACE_DISPLAY_P3_NONLINEAR_EXT⟩]

/-- The frame slot is within `MAX_FRAMES_IN_FLIGHT` and the three per-slot
vectors have `MAX_FRAMES_IN_FLIGHT` entries. -/
def SlotsInRange (s : MainState) : Prop :=
  s.currentFrame < MAX_FRAMES_IN_FLIGHT
    ∧ s.vkImageAvailableSemaphores.length = MAX_FRAMES_IN_FLIGHT
    ∧ s.vkRenderFinishedSemaphores.length = MAX_FRAMES_IN_FLIGHT
    ∧ s.vkInFlightFences.length = MAX_FRAMES_IN_FLIGHT

/-- Output vectors of an earlier use, to be overwritten. -/
def staleSyncObjects : SyncObjects := ⟨[41, 42, 43], [44], [], [45, 46, 47, 48, 49]⟩

/-- A run of `main` in which the first startup call, the check of the API
support, throws. -/
def noApiRun : MainEnv :=
  ⟨{ sampleStartupEnv with
      thrown := fun step =>
        if step = .GetAndCheckVulkanAPISupport then some "Vulkan: API Not Supported" else none },
    []⟩

/-- A run of `main` in which the creation of the render pass throws. -/
def noRenderPassRun : MainEnv :=
  ⟨{ sampleStartupEnv with
      thrown := fun step =>
        if step = .CreateVulkanRenderPass then some "failed to create render pass!" else none },
    []⟩

/-- A run of `main` in which `CreateVulkanSyncObjects` throws at the fence of
the second frame slot. -/
def noFenceRun : MainEnv :=
  ⟨{ sampleStartupEnv with
      sync :=
        { imageReady := fun i => (.VK_SUCCESS, 500 + i)
          renderFinished := fun i => (.VK_SUCCESS, 600 + i)
          inFlight := fun i =>
            (if i = 1 then .VK_ERROR_OUT_OF_DEVICE_MEMORY else .VK_SUCCESS, 700 + i) } },
    []⟩

/-- The sample driver on a surface that leaves the extent to the swapchain
in the way line 425 tests for, with extents between `1 x 1` and `1024 x 600`. -/
def clampingSwapchainEnv : SwapchainEnv :=
  { sampleSwapchainEnv with
    surfaceCapabilities :=
      { sampleCapabilities with
        currentExtent := ⟨0xFFFFFFF, 0xFFFFFFF⟩
        maxImageExtent := ⟨1024, 600⟩ } }

/-- The calls of the `catch` block (lines 941-944) for the way the `try` block
ended: the notification when an exception was thrown, nothing otherwise. -/
def notificationOf : Status → List Call
  | .thrown message => [.SDL_ShowSimpleMessageBox message]
  | _ => []

/-- The calls of lines 946-969 for per-slot vectors of two entries each:
render-finished semaphore, image-available semaphore and fence of slot 0, then
of slot 1, then the remaining objects in the order of the source. -/
def teardownCalls (s : MainState) (renderFinished0 renderFinished1 imageAvailable0
    imageAvailable1 inFlightFence0 inFlightFence1 : Handle) : List Call :=
  [.vkDestroySemaphore renderFinished0, .vkDestroySemaphore imageAvailable0,
    .vkDestroyFence inFlightFence0,
    .vkDestroySemaphore renderFinished1, .vkDestroySemaphore imageAvailable1,
    .vkDestroyFence inFlightFence1,
    .vkDestroyCommandPool s.vkCommandPool]
  ++ s.vkChainFramebuffers.map Call.vkDestroyFramebuffer
  ++ [.vkDestroyPipeline s.vkPipeline, .vkDestroyPipelineLayout s.vkPipelineLayout,
      .vkDestroyRenderPass s.vkRenderPass]
  ++ s.vkChainImageViews.map Call.vkDestroyImageView
  ++ [.vkDestroySwapchainKHR s.vkSwapchain, .vkDestroyDevice s.vkDevice,
      .vkDestroySurfaceKHR s.surface, .vkDestroyDebugUtilsMessengerEXT s.vkDebugMessenger,
      .vkDestroyInstance s.vkInstance]

/-! ## Image count, extent and format of the swapchain -/

/-- Every `vkCreateSwapchainKHR` that `CreateVulkanSwapchain` issues carries the
image count of line 422 and the extent of lines 424-431. -/
theorem createInfo_of_mem (env : SwapchainEnv) (width height : Int) (out : SwapchainOut)
    (swapInfo : VkSwapchainCreateInfoKHR)
    (h : Call.vkCreateSwapchainKHR swapInfo ∈ (CreateVulkanSwapchain env width height out).calls) :
    swapInfo.minImageCount = swapImageCount env.surfaceCapabilities
      ∧ swapInfo.imageExtent = swapExtent env.surfaceCapabilities width height := by
  unfold CreateVulkanSwapchain at h
  split at h
  · simp at h
  · split at h
    · simp at h
    · split at h
      · simp at h
      · split at h
        · simp at h
        · simp at h
        · split at h <;>
          · simp only [List.mem_append, List.mem_singleton, Call.vkCreateSwapchainKHR.injEq] at h
            rcases h with h | h
            · split at h <;> simp at h
            · subst h
              exact ⟨rfl, rfl⟩

/-- When `CreateVulkanSwapchain` returns, `outExtent` is the extent of lines
424-431. -/
theorem outExtent_of_returned (env : SwapchainEnv) (width height : Int) (out : SwapchainOut)
    (h : (CreateVulkanSwapchain env width height out).status = .returned) :
    (CreateVulkanSwapchain env width height out).out.outExtent
      = swapExtent env.surfaceCapabilities width height := by
  unfold CreateVulkanSwapchain at h ⊢
  split
  · simp_all
  · split
    · simp_all
    · split
      · simp_all
      · split
        · simp_all
        · simp_all
        · split
          · simp_all
          · rfl

/-- The result of `clamp` lies between the bounds when they are ordered. -/
theorem clamp_mem (value min max : Nat) (h : min ≤ max) :
    min ≤ clamp value min max ∧ clamp value min max ≤ max := by
  unfold clamp
  split
  · exact ⟨le_refl _, h⟩
  · split <;> omega

/-- The test of line 389 in terms of `SingleUndefined`. -/
theorem singleUndefined_iff (foundFormats : List VkSurfaceFormatKHR) :
    (foundFormats.length = 1
      ∧ foundFormats.head?.map (fun f => f.format) = some .VK_FORMAT_UNDEFINED)
      ↔ SingleUndefined foundFormats := by
  unfold SingleUndefined
  constructor
  · rintro ⟨hlen, hfmt⟩
    match foundFormats, hlen, hfmt with
    | [⟨format, colorSpace⟩], _, hfmt =>
      simp at hfmt
      exact ⟨colorSpace, by rw [hfmt]⟩
  · rintro ⟨colorSpace, rfl⟩
    simp

/-- C6: for capabilities with `minImageCount = m`, `maxImageCount = M`,
`M > 0`, `m ≤ M` and `m + 1` representable in 32 bits, the image count of every
`vkCreateSwapchainKHR` request that `CreateVulkanSwapchain` issues is
`min (m + 1) M`, and lies between `m` and `M`. -/
theorem imageCount_bounded (env : SwapchainEnv) (width height : Int) (out : SwapchainOut)
    (swapInfo : VkSwapchainCreateInfoKHR)
    (hcall : Call.vkCreateSwapchainKHR swapInfo
      ∈ (CreateVulkanSwapchain env width height out).calls)
    (_hpos : 0 < env.surfaceCapabilities.maxImageCount)
    (hle : env.surfaceCapabilities.minImageCount ≤ env.surfaceCapabilities.maxImageCount)
    (hfit : env.surfaceCapabilities.minImageCount + 1 < UINT32_SIZE) :
    swapInfo.minImageCount
        = min (env.surfaceCapabilities.minImageCount + 1) env.surfaceCapabilities.maxImageCount
      ∧ env.surfaceCapabilities.minImageCount ≤ swapInfo.minImageCount
      ∧ swapInfo.minImageCount ≤ env.surfaceCapabilities.maxImageCount := by
  have hcount := (createInfo_of_mem env width height out swapInfo hcall).1
  have hmod : (env.surfaceCapabilities.minImageCount + 1) % UINT32_SIZE
      = env.surfaceCapabilities.minImageCount + 1 := Nat.mod_eq_of_lt hfit
  rw [hcount]
  unfold swapImageCount
  rw [hmod]
  split <;> omega

/-- C6, witness: with `m = 2` and `M = 3` the request is issued and asks for
`3` images. -/
theorem imageCount_bounded_witness :
    Call.vkCreateSwapchainKHR sampleSwapInfo
        ∈ (CreateVulkanSwapchain sampleSwapchainEnv WIDTH HEIGHT sampleSwapchainOut).calls
      ∧ sampleSwapInfo.minImageCount = 3
      ∧ (sampleSwapInfo.minImageCount = min (2 + 1) 3
          ∧ 2 ≤ sampleSwapInfo.minImageCount ∧ sampleSwapInfo.minImageCount ≤ 3) :=
  ⟨by decide, rfl,
    imageCount_bounded sampleSwapchainEnv WIDTH HEIGHT sampleSwapchainOut sampleSwapInfo
      (by decide) (by decide) (by decide) (by decide)⟩

/-- C7, the code at `minImageCount = 2`, `maxImageCount = 0`: line 422
evaluates to `2`, and the one creation request asks for `2` images, not `3`. -/
theorem imageCount_unbounded_eval :
    swapImageCount unboundedSwapchainEnv.surfaceCapabilities = 2
      ∧ (CreateVulkanSwapchain unboundedSwapchainEnv WIDTH HEIGHT sampleSwapchainOut).calls
          = [.vkCreateSwapchainKHR { sampleSwapInfo with minImageCount := 2 }] := by
  constructor
  · decide
  · rfl

/-- With ordered bounds, `clamp` is the value when it lies between the bounds,
the lower bound when it is below and the upper bound when it is above. -/
theorem clamp_eq (value lower upper : Nat) (h : lower ≤ upper) :
    clamp value lower upper = max lower (min value upper)
      ∧ (lower ≤ value → value ≤ upper → clamp value lower upper = value)
      ∧ (value < lower → clamp value lower upper = lower)
      ∧ (upper < value → clamp value lower upper = upper) := by
  unfold clamp
  refine ⟨?_, ?_, ?_, ?_⟩
  · repeat' split
    all_goals omega
  · intro h1 h2
    rw [if_neg (by omega), if_neg (by omega)]
  · intro h1
    rw [if_pos h1]
  · intro h1
    rw [if_neg (by omega), if_pos h1]

/-- The conversion to `uint32_t` yields the representative of the value
modulo `2 ^ 32`. -/
theorem toUInt32_eq (x : Int) (n : Nat) (h : (n : Int) = x % 2 ^ 32) : toUInt32 x = n := by
  unfold toUInt32
  rw [← h]
  exact Int.toNat_natCast n

/-- C8: when the minimum extent is below the maximum extent in both
components and `CreateVulkanSwapchain` returns, the extent it hands back is
either the requested size clamped component-wise (the branch taken when line
425 holds), or exactly `currentExtent` (the other branch).  Clamped means: with
`requestedWidth`, `requestedHeight` the requested size as 32-bit unsigned
values, each component is the requested one when that lies between the minimum
and the maximum, the minimum when it is below and the maximum when it is
above, that is, `max minimum (min requested maximum)`; so it lies within the
bounds. -/
theorem extent_resolved (env : SwapchainEnv) (width height : Int) (out : SwapchainOut)
    (requestedWidth requestedHeight : Nat)
    (hrw : (requestedWidth : Int) = width % 2 ^ 32)
    (hrh : (requestedHeight : Int) = height % 2 ^ 32)
    (hw : env.surfaceCapabilities.minImageExtent.width
      ≤ env.surfaceCapabilities.maxImageExtent.width)
    (hh : env.surfaceCapabilities.minImageExtent.height
      ≤ env.surfaceCapabilities.maxImageExtent.height)
    (hret : (CreateVulkanSwapchain env width height out).status = .returned) :
    (env.surfaceCapabilities.currentExtent.width = 0xFFFFFFF
      ∧ (CreateVulkanSwapchain env width height out).out.outExtent
        = ⟨clamp (toUInt32 width) env.surfaceCapabilities.minImageExtent.width
            env.surfaceCapabilities.maxImageExtent.width,
           clamp (toUInt32 height) env.surfaceCapabilities.minImageExtent.height
            env.surfaceCapabilities.maxImageExtent.height⟩
      ∧ (CreateVulkanSwapchain env width height out).out.outExtent
        = ⟨max env.surfaceCapabilities.minImageExtent.width
            (min requestedWidth env.surfaceCapabilities.maxImageExtent.width),
           max env.surfaceCapabilities.minImageExtent.height
            (min requestedHeight env.surfaceCapabilities.maxImageExtent.height)⟩
      ∧ (env.surfaceCapabilities.minImageExtent.width ≤ requestedWidth →
          requestedWidth ≤ env.surfaceCapabilities.maxImageExtent.width →
          (CreateVulkanSwapchain env width height out).out.outExtent.width = requestedWidth)
      ∧ (env.surfaceCapabilities.minImageExtent.height ≤ requestedHeight →
          requestedHeight ≤ env.surfaceCapabilities.maxImageExtent.height →
          (CreateVulkanSwapchain env width height out).out.outExtent.height = requestedHeight)
      ∧ env.surfaceCapabilities.minImageExtent.width
          ≤ (CreateVulkanSwapchain env width height out).out.outExtent.width
      ∧ (CreateVulkanSwapchain env width height out).out.outExtent.width
          ≤ env.surfaceCapabilities.maxImageExtent.width
      ∧ env.surfaceCapabilities.minImageExtent.height
          ≤ (CreateVulkanSwapchain env width height out).out.outExtent.height
      ∧ (CreateVulkanSwapchain env width height out).out.outExtent.height
          ≤ env.surfaceCapabilities.maxImageExtent.height)
    ∨ (env.surfaceCapabilities.currentExtent.width ≠ 0xFFFFFFF
      ∧ (CreateVulkanSwapchain env width height out).out.outExtent
        = env.surfaceCapabilities.currentExtent) := by
  rw [outExtent_of_returned env width height out hret]
  unfold swapExtent
  by_cases hsentinel : env.surfaceCapabilities.currentExtent.width = 0xFFFFFFF
  · left
    rw [if_pos hsentinel, toUInt32_eq width requestedWidth hrw,
      toUInt32_eq height requestedHeight hrh]
    have hcw := clamp_eq requestedWidth _ _ hw
    have hch := clamp_eq requestedHeight _ _ hh
    refine ⟨hsentinel, rfl, ?_, ?_, ?_, (clamp_mem _ _ _ hw).1, (clamp_mem _ _ _ hw).2,
      (clamp_mem _ _ _ hh).1, (clamp_mem _ _ _ hh).2⟩
    · rw [hcw.1, hch.1]
    · exact hcw.2.1
    · exact hch.2.1
  · right
    rw [if_neg hsentinel]
    exact ⟨hsentinel, rfl⟩

/-- C8, witness: with `currentExtent = (800, 600)` the call returns the extent
`(800, 600)`; on `clampingSwapchainEnv` the requested `1280 x 720` is clamped
into `1 x 1 .. 1024 x 600` and the call returns `(1024, 600)`. -/
theorem extent_resolved_witness :
    (CreateVulkanSwapchain sampleSwapchainEnv WIDTH HEIGHT sampleSwapchainOut).status = .returned
      ∧ (CreateVulkanSwapchain sampleSwapchainEnv WIDTH HEIGHT sampleSwapchainOut).out.outExtent
          = ⟨800, 600⟩
      ∧ sampleSwapchainEnv.surfaceCapabilities.currentExtent = ⟨800, 600⟩
      ∧ (CreateVulkanSwapchain clampingSwapchainEnv WIDTH HEIGHT sampleSwapchainOut).status
          = .returned
      ∧ (CreateVulkanSwapchain clampingSwapchainEnv WIDTH HEIGHT sampleSwapchainOut).out.outExtent
          = ⟨1024, 600⟩ :=
  have h := extent_resolved sampleSwapchainEnv WIDTH HEIGHT sampleSwapchainOut 1280 720
    (by decide) (by decide) (by decide) (by decide) (by decide)
  have hclamp := extent_resolved clampingSwapchainEnv WIDTH HEIGHT sampleSwapchainOut 1280 720
    (by decide) (by decide) (by decide) (by decide) (by decide)
  ⟨by decide, by
    rcases h with h | h
    · exact absurd h.1 (by decide)
    · exact h.2, rfl, by decide, by
    rcases hclamp with h | h
    · rw [h.2.2.1]
      decide
    · exact absurd rfl h.1⟩

/-- C9: when the format list is a single entry with pixel format
`VK_FORMAT_UNDEFINED`, or contains the pair (`VK_FORMAT_B8G8R8A8_SRGB`,
`VK_COLOR_SPACE_SRGB_NONLINEAR_KHR`), and both queries succeed,
`GetVulkanImageFormat` returns exactly that pair. -/
theorem imageFormat_preferred (foundFormats : List VkSurfaceFormatKHR)
    (h : SingleUndefined foundFormats ∨ preferredFormat ∈ foundFormats) :
    GetVulkanImageFormat .VK_SUCCESS .VK_SUCCESS foundFormats = .returned preferredFormat := by
  unfold GetVulkanImageFormat
  simp only [ne_eq, not_true_eq_false, if_false]
  by_cases hsingle : foundFormats.length = 1
      ∧ foundFormats.head?.map (fun f => f.format) = some .VK_FORMAT_UNDEFINED
  · rw [if_pos hsingle]
    rfl
  · rw [if_neg hsingle]
    have hmem : preferredFormat ∈ foundFormats := by
      rcases h with h | h
      · exact absurd ((singleUndefined_iff foundFormats).2 h) hsingle
      · exact h
    cases houter : foundFormats.find?
        (fun outerFormat => outerFormat.format == .VK_FORMAT_B8G8R8A8_SRGB) with
    | none =>
      have := List.find?_eq_none.1 houter preferredFormat hmem
      simp [preferredFormat] at this
    | some outerFormat =>
      have hformat := List.find?_some houter
      cases hinner : foundFormats.find?
          (fun innerFormat => innerFormat.colorSpace == .VK_COLOR_SPACE_SRGB_NONLINEAR_KHR) with
      | none =>
        have := List.find?_eq_none.1 hinner preferredFormat hmem
        simp [preferredFormat] at this
      | some innerFormat =>
        have hspace := List.find?_some hinner
        simp only [beq_iff_eq] at hformat hspace
        simp only [hformat, hspace, preferredFormat]

/-- C9, witness: the list of `sampleSwapchainEnv` contains the pair in second
position. -/
theorem imageFormat_preferred_witness :
    preferredFormat ∈ sampleSwapchainEnv.foundFormats
      ∧ GetVulkanImageFormat .VK_SUCCESS .VK_SUCCESS sampleSwapchainEnv.foundFormats
          = .returned preferredFormat :=
  ⟨by decide, imageFormat_preferred sampleSwapchainEnv.foundFormats (Or.inr (by decide))⟩

/-- C10, counterexample: `mixedFormats` is non-empty, is not a single
`VK_FORMAT_UNDEFINED` entry and does not contain the preferred pair, yet
`GetVulkanImageFormat` returns the preferred pair, which is not the first
entry of the list. -/
theorem imageFormat_first_counterexample :
    mixedFormats ≠ []
      ∧ ¬ SingleUndefined mixedFormats
      ∧ preferredFormat ∉ mixedFormats
      ∧ mixedFormats.head? = some ⟨.VK_FORMAT_R8G8B8A8_UNORM, .VK_COLOR_SPACE_SRGB_NONLINEAR_KHR⟩
      ∧ GetVulkanImageFormat .VK_SUCCESS .VK_SUCCESS mixedFormats = .returned preferredFormat
      ∧ preferredFormat ≠ ⟨.VK_FORMAT_R8G8B8A8_UNORM, .VK_COLOR_SPACE_SRGB_NONLINEAR_KHR⟩ := by
  refine ⟨by decide, ?_, by decide, rfl, rfl, by decide⟩
  rintro ⟨colorSpace, h⟩
  simp [mixedFormats] at h

/-- C10, amended: for a non-empty format list that is not a single
`VK_FORMAT_UNDEFINED` entry and in which no entry has the pixel format
`VK_FORMAT_B8G8R8A8_SRGB`, `GetVulkanImageFormat` returns the first entry of
the list, pixel format and color space. -/
theorem imageFormat_first (foundFormats : List VkSurfaceFormatKHR) (first : VkSurfaceFormatKHR)
    (hfirst : foundFormats.head? = some first)
    (hsingle : ¬ SingleUndefined foundFormats)
    (hnone : ∀ f ∈ foundFormats, f.format ≠ .VK_FORMAT_B8G8R8A8_SRGB) :
    GetVulkanImageFormat .VK_SUCCESS .VK_SUCCESS foundFormats = .returned first := by
  unfold GetVulkanImageFormat
  simp only [ne_eq, not_true_eq_false, if_false]
  rw [if_neg (fun hc => hsingle ((singleUndefined_iff foundFormats).1 hc))]
  have houter : foundFormats.find?
      (fun outerFormat => outerFormat.format == .VK_FORMAT_B8G8R8A8_SRGB) = none := by
    rw [List.find?_eq_none]
    intro f hf
    simpa using hnone f hf
  rw [houter, hfirst]

/-- C10, witness of the amended statement on `foreignFormats`. -/
theorem imageFormat_first_witness :
    foreignFormats.head?
        = some ⟨.VK_FORMAT_R8G8B8A8_UNORM, .VK_COLOR_SPACE_DISPLAY_P3_NONLINEAR_EXT⟩
      ∧ GetVulkanImageFormat .VK_SUCCESS .VK_SUCCESS foreignFormats
          = .returned ⟨.VK_FORMAT_R8G8B8A8_UNORM, .VK_COLOR_SPACE_DISPLAY_P3_NONLINEAR_EXT⟩ :=
  ⟨rfl, imageFormat_first foreignFormats _ rfl
    (by rintro ⟨colorSpace, h⟩; simp [foreignFormats] at h)
    (by decide)⟩

/-! ## The frame loop -/

/-- The body of the loop when every vector access is in range. -/
theorem drawFrame_run (input : FrameInput) (s : MainState)
    (inFlightFence imageAvailable renderFinished imageFence commandBuffer : Handle)
    (hfence : s.vkInFlightFences[s.currentFrame]? = some inFlightFence)
    (havailable : s.vkImageAvailableSemaphores[s.currentFrame]? = some imageAvailable)
    (hfinished : s.vkRenderFinishedSemaphores[s.currentFrame]? = some renderFinished)
    (himage : s.vkImagesInFlight[input.imageIndex]? = some imageFence)
    (hbuffer : s.vkCommandBuffers[input.imageIndex]? = some commandBuffer) :
    drawFrame input s =
      ⟨[Call.SDL_PollEvent, .vkWaitForFences inFlightFence,
          .vkAcquireNextImageKHR s.vkSwapchain imageAvailable]
        ++ (if imageFence ≠ VK_NULL_HANDLE then [.vkWaitForFences imageFence] else [])
        ++ [.assignImagesInFlight input.imageIndex inFlightFence,
            .vkResetFences inFlightFence,
            .vkQueueSubmit imageAvailable .VK_PIPELINE_STAGE_COLOR_ATTACHMENT_OUTPUT_BIT
              commandBuffer renderFinished inFlightFence]
        ++ (if input.submitResult = .VK_SUCCESS then
              [.vkQueuePresentKHR renderFinished s.vkSwapchain input.imageIndex,
               .assignCurrentFrame ((s.currentFrame + 1) % MAX_FRAMES_IN_FLIGHT)]
            else []),
       { s with
          isRunning := if input.eventType = .SDL_QUIT then false else s.isRunning
          vkImagesInFlight := s.vkImagesInFlight.set input.imageIndex inFlightFence
          currentFrame := if input.submitResult = .VK_SUCCESS then
              (s.currentFrame + 1) % MAX_FRAMES_IN_FLIGHT else s.currentFrame },
       if input.submitResult = .VK_SUCCESS then .returned
        else .thrown "failed to submit draw command buffer!"⟩ := by
  unfold drawFrame
  by_cases hquit : input.eventType = .SDL_QUIT <;>
  by_cases hsubmit : input.submitResult = .VK_SUCCESS <;>
  simp [hquit, hsubmit, hfence, havailable, hfinished, himage, hbuffer]

/-- C1: in an iteration in which every call succeeds, with frame slot
`c = currentFrame` and acquired index `idx = imageIndex`, the iteration
completes and its calls are, in this order: the event poll, the wait on
`inFlightFence[c]`, the acquisition signalling `imageReady[c]`, the wait on
`imagesInFlight[idx]` when that entry is not null, the assignment of
`inFlightFence[c]` to `imagesInFlight[idx]`, the reset of `inFlightFence[c]`,
the submit of command buffer `idx` waiting on `imageReady[c]` at the
color-attachment-output stage and signalling `renderFinished[c]` and
`inFlightFence[c]`, the present of `idx` waiting on `renderFinished[c]`, and
the advance of `currentFrame`.  The reset follows both waits and directly
precedes the submit. -/
theorem frame_call_order (input : FrameInput) (s : MainState)
    (inFlightFence imageAvailable renderFinished imageFence commandBuffer : Handle)
    (hsuccess : input.AllSucceed)
    (hfence : s.vkInFlightFences[s.currentFrame]? = some inFlightFence)
    (havailable : s.vkImageAvailableSemaphores[s.currentFrame]? = some imageAvailable)
    (hfinished : s.vkRenderFinishedSemaphores[s.currentFrame]? = some renderFinished)
    (himage : s.vkImagesInFlight[input.imageIndex]? = some imageFence)
    (hbuffer : s.vkCommandBuffers[input.imageIndex]? = some commandBuffer) :
    (drawFrame input s).status = .returned
      ∧ (drawFrame input s).calls =
        [Call.SDL_PollEvent, .vkWaitForFences inFlightFence,
          .vkAcquireNextImageKHR s.vkSwapchain imageAvailable]
        ++ (if imageFence ≠ VK_NULL_HANDLE then [.vkWaitForFences imageFence] else [])
        ++ [.assignImagesInFlight input.imageIndex inFlightFence,
            .vkResetFences inFlightFence,
            .vkQueueSubmit imageAvailable .VK_PIPELINE_STAGE_COLOR_ATTACHMENT_OUTPUT_BIT
              commandBuffer renderFinished inFlightFence,
            .vkQueuePresentKHR renderFinished s.vkSwapchain input.imageIndex,
            .assignCurrentFrame ((s.currentFrame + 1) % MAX_FRAMES_IN_FLIGHT)]
      ∧ (drawFrame input s).out.currentFrame = (s.currentFrame + 1) % MAX_FRAMES_IN_FLIGHT := by
  have hsubmit : input.submitResult = .VK_SUCCESS := hsuccess.2.2.2.2.1
  rw [drawFrame_run input s inFlightFence imageAvailable renderFinished imageFence commandBuffer
    hfence havailable hfinished himage hbuffer]
  simp [hsubmit]

/-- C1, witness: slot `0` acquires image `1`, whose table entry holds fence
`701`. -/
theorem frame_call_order_witness :
    (sampleFrame (.other 0) 1).AllSucceed
      ∧ (drawFrame (sampleFrame (.other 0) 1) busyLoopState).status = .returned
      ∧ (drawFrame (sampleFrame (.other 0) 1) busyLoopState).calls =
        [.SDL_PollEvent, .vkWaitForFences 700, .vkAcquireNextImageKHR 7 500,
         .vkWaitForFences 701, .assignImagesInFlight 1 700, .vkResetFences 700,
         .vkQueueSubmit 500 .VK_PIPELINE_STAGE_COLOR_ATTACHMENT_OUTPUT_BIT 401 600 700,
         .vkQueuePresentKHR 600 7 1, .assignCurrentFrame 1] :=
  have h := frame_call_order (sampleFrame (.other 0) 1) busyLoopState 700 500 600 701 401
    ⟨rfl, rfl, rfl, rfl, rfl, rfl⟩ rfl rfl rfl rfl rfl
  ⟨⟨rfl, rfl, rfl, rfl, rfl, rfl⟩, h.1, h.2.1⟩

/-- C2: for every loop state and acquired index `idx` within the in-flight
table (so that `imagesInFlight[idx]` is `imageFence`): when `imageFence` is
not null the iteration waits on it directly before the assignment that claims
the image; after the iteration `imagesInFlight[idx]` is
`inFlightFence[currentFrame]`, every other entry is unchanged, and the table
has the same length. -/
theorem image_claimed (input : FrameInput) (s : MainState)
    (inFlightFence imageAvailable renderFinished imageFence commandBuffer : Handle)
    (hfence : s.vkInFlightFences[s.currentFrame]? = some inFlightFence)
    (havailable : s.vkImageAvailableSemaphores[s.currentFrame]? = some imageAvailable)
    (hfinished : s.vkRenderFinishedSemaphores[s.currentFrame]? = some renderFinished)
    (himage : s.vkImagesInFlight[input.imageIndex]? = some imageFence)
    (hbuffer : s.vkCommandBuffers[input.imageIndex]? = some commandBuffer) :
    (imageFence ≠ VK_NULL_HANDLE →
        ∃ later, (drawFrame input s).calls =
          [Call.SDL_PollEvent, .vkWaitForFences inFlightFence,
            .vkAcquireNextImageKHR s.vkSwapchain imageAvailable,
            .vkWaitForFences imageFence,
            .assignImagesInFlight input.imageIndex inFlightFence] ++ later
          ∧ Call.assignImagesInFlight input.imageIndex inFlightFence ∉ later)
      ∧ (drawFrame input s).out.vkImagesInFlight[input.imageIndex]? = some inFlightFence
      ∧ (∀ j, j ≠ input.imageIndex →
          (drawFrame input s).out.vkImagesInFlight[j]? = s.vkImagesInFlight[j]?)
      ∧ (drawFrame input s).out.vkImagesInFlight.length = s.vkImagesInFlight.length := by
  have hlt : input.imageIndex < s.vkImagesInFlight.length := by
    by_contra hge
    rw [List.getElem?_eq_none (Nat.le_of_not_lt hge)] at himage
    cases himage
  rw [drawFrame_run input s inFlightFence imageAvailable renderFinished imageFence commandBuffer
    hfence havailable hfinished himage hbuffer]
  refine ⟨?_, ?_, ?_, ?_⟩
  · intro hbusy
    by_cases hsubmit : input.submitResult = .VK_SUCCESS <;> simp [hbusy, hsubmit]
  · simp [hlt]
  · intro j hj
    simp [List.getElem?_set, Ne.symm hj]
  · simp

/-- C2, witness: image `1` is held by fence `701`; slot `0` waits on `701`,
then the table becomes `[0, 700, 0]`. -/
theorem image_claimed_witness :
    busyLoopState.vkImagesInFlight = [0, 701, 0]
      ∧ (drawFrame (sampleFrame (.other 0) 1) busyLoopState).out.vkImagesInFlight = [0, 700, 0]
      ∧ (drawFrame (sampleFrame (.other 0) 1) busyLoopState).out.vkImagesInFlight[1]?
          = some 700 :=
  ⟨rfl, rfl,
    (image_claimed (sampleFrame (.other 0) 1) busyLoopState 700 500 600 701 401
      rfl rfl rfl rfl rfl).2.1⟩

/-- C3, counterexample: the acquisition reports `VK_ERROR_OUT_OF_DATE_KHR`, and
the iteration submits and presents all the same; no swapchain is created. -/
theorem stale_acquire_counterexample :
    staleFrame.acquireResult = .VK_ERROR_OUT_OF_DATE_KHR
      ∧ (drawFrame staleFrame sampleLoopState).calls =
        [.SDL_PollEvent, .vkWaitForFences 700, .vkAcquireNextImageKHR 7 500,
         .assignImagesInFlight 0 700, .vkResetFences 700,
         .vkQueueSubmit 500 .VK_PIPELINE_STAGE_COLOR_ATTACHMENT_OUTPUT_BIT 400 600 700,
         .vkQueuePresentKHR 600 7 0, .assignCurrentFrame 1]
      ∧ (drawFrame staleFrame sampleLoopState).out.vkSwapchain = sampleLoopState.vkSwapchain :=
  ⟨rfl, rfl, rfl⟩

/-- No iteration of the frame loop creates or destroys a swapchain, and
`vkSwapchain` is the same after it, however the iteration ends. -/
theorem drawFrame_keeps_swapchain (input : FrameInput) (s : MainState) :
    (∀ swapInfo, Call.vkCreateSwapchainKHR swapInfo ∉ (drawFrame input s).calls)
      ∧ (∀ swapchain, Call.vkDestroySwapchainKHR swapchain ∉ (drawFrame input s).calls)
      ∧ (drawFrame input s).out.vkSwapchain = s.vkSwapchain := by
  unfold drawFrame
  by_cases hquit : input.eventType = .SDL_QUIT <;>
  · simp only [hquit, if_true, if_false]
    repeat' split
    all_goals simp

/-- C3, amended: in an iteration whose acquisition reports a stale surface
the result is not inspected: the iteration is the one of a successful
acquisition that leaves the same value in `imageIndex`; it creates and
destroys no swapchain and leaves `vkSwapchain` as it was; and whenever that
value is an index of the in-flight table and of the command buffers, the
frame slot is in range and the submit succeeds, the iteration completes with
the submit and the present of that image among its calls, and a running loop
goes on with the next recorded iteration. -/
theorem stale_acquire_ignored (input : FrameInput) (s : MainState)
    (_hstale : input.acquireResult = .VK_ERROR_OUT_OF_DATE_KHR) :
    drawFrame input s = drawFrame { input with acquireResult := .VK_SUCCESS } s
      ∧ (∀ swapInfo, Call.vkCreateSwapchainKHR swapInfo ∉ (drawFrame input s).calls)
      ∧ (∀ swapchain, Call.vkDestroySwapchainKHR swapchain ∉ (drawFrame input s).calls)
      ∧ (drawFrame input s).out.vkSwapchain = s.vkSwapchain
      ∧ (∀ inFlightFence imageAvailable renderFinished imageFence commandBuffer : Handle,
          s.vkInFlightFences[s.currentFrame]? = some inFlightFence →
          s.vkImageAvailableSemaphores[s.currentFrame]? = some imageAvailable →
          s.vkRenderFinishedSemaphores[s.currentFrame]? = some renderFinished →
          s.vkImagesInFlight[input.imageIndex]? = some imageFence →
          s.vkCommandBuffers[input.imageIndex]? = some commandBuffer →
          input.submitResult = .VK_SUCCESS →
          (drawFrame input s).status = .returned
            ∧ Call.vkQueueSubmit imageAvailable .VK_PIPELINE_STAGE_COLOR_ATTACHMENT_OUTPUT_BIT
                commandBuffer renderFinished inFlightFence ∈ (drawFrame input s).calls
            ∧ Call.vkQueuePresentKHR renderFinished s.vkSwapchain input.imageIndex
                ∈ (drawFrame input s).calls
            ∧ ∀ rest, s.isRunning = true →
                (frameLoop (input :: rest) s).calls
                  = (drawFrame input s).calls ++ (frameLoop rest (drawFrame input s).out).calls) := by
  obtain ⟨hcreate, hdestroy, hsame⟩ := drawFrame_keeps_swapchain input s
  refine ⟨rfl, hcreate, hdestroy, hsame, ?_⟩
  intro inFlightFence imageAvailable renderFinished imageFence commandBuffer
    hfence havailable hfinished himage hbuffer hsubmit
  have hrun := drawFrame_run input s inFlightFence imageAvailable renderFinished imageFence
    commandBuffer hfence havailable hfinished himage hbuffer
  have hstatus : (drawFrame input s).status = .returned := by
    rw [hrun]
    simp [hsubmit]
  refine ⟨hstatus, ?_, ?_, ?_⟩
  · rw [hrun]
    simp
  · rw [hrun]
    simp [hsubmit]
  · intro rest hrunning
    simp only [frameLoop, hrunning, if_true]
    unfold Ran.andThen
    rw [hstatus]

/-- C3, witness of the amended statement on `staleFrame`: the stale iteration
presents image `0`, and the loop runs the iteration recorded after it. -/
theorem stale_acquire_ignored_witness :
    staleFrame.acquireResult = .VK_ERROR_OUT_OF_DATE_KHR
      ∧ (drawFrame staleFrame sampleLoopState).status = .returned
      ∧ Call.vkQueuePresentKHR 600 sampleLoopState.vkSwapchain staleFrame.imageIndex
          ∈ (drawFrame staleFrame sampleLoopState).calls
      ∧ (frameLoop [staleFrame, sampleFrame (.other 0) 1] sampleLoopState).calls
          = (drawFrame staleFrame sampleLoopState).calls
            ++ (frameLoop [sampleFrame (.other 0) 1]
                  (drawFrame staleFrame sampleLoopState).out).calls :=
  have h := (stale_acquire_ignored staleFrame sampleLoopState rfl).2.2.2.2 700 500 600 0 400
    rfl rfl rfl rfl rfl rfl
  ⟨rfl, h.1, h.2.2.1, h.2.2.2 [sampleFrame (.other 0) 1] rfl⟩

/-- Composition when the first part returned. -/
theorem andThen_returned {σ : Type} (first : Ran σ) (next : σ → Ran σ)
    (h : first.status = .returned) :
    first.andThen next =
      ⟨first.calls ++ (next first.out).calls, (next first.out).out, (next first.out).status⟩ := by
  unfold Ran.andThen
  rw [h]

/-- Composition when the first part did not return. -/
theorem andThen_stopped {σ : Type} (first : Ran σ) (next : σ → Ran σ)
    (h : first.status ≠ .returned) : first.andThen next = first := by
  unfold Ran.andThen
  split
  · rename_i hret
    exact absurd hret h
  · rfl

/-- A loop that is still running after the recorded iterations `before` goes
on with the iterations recorded next. -/
theorem frameLoop_append (before later : List FrameInput) (s : MainState)
    (h : (frameLoop before s).status = .pending) :
    frameLoop (before ++ later) s =
      ⟨(frameLoop before s).calls ++ (frameLoop later (frameLoop before s).out).calls,
        (frameLoop later (frameLoop before s).out).out,
        (frameLoop later (frameLoop before s).out).status⟩ := by
  induction before generalizing s with
  | nil =>
    by_cases hrun : s.isRunning = true
    · simp [frameLoop, hrun]
    · simp [frameLoop, hrun] at h
  | cons input rest ih =>
    by_cases hrun : s.isRunning = true
    · have hcons : ∀ inputs, frameLoop (input :: inputs) s
          = (drawFrame input s).andThen (frameLoop inputs) := by
        intro inputs
        simp [frameLoop, hrun]
      rw [List.cons_append, hcons, hcons] at *
      by_cases hret : (drawFrame input s).status = .returned
      · rw [andThen_returned _ _ hret] at h ⊢
        rw [andThen_returned _ _ hret, ih _ h]
        simp [List.append_assoc]
      · rw [andThen_stopped _ _ hret] at h
        unfold drawFrame at h
        simp only at h
        repeat' split at h
        all_goals simp at h
    · simp [frameLoop, hrun] at h

/-- The body of `main` once the `try` block threw: the notification, then
the teardown. -/
theorem main_of_thrown (env : MainEnv) (message : String)
    (h : (tryBlock env).status = .thrown message) :
    (main env).calls = (tryBlock env).calls ++ [.SDL_ShowSimpleMessageBox message]
      ++ (teardown (tryBlock env).out).calls := by
  unfold main
  simp only
  rw [h]

/-- A loop that is still running has `isRunning` set. -/
theorem frameLoop_pending_running (inputs : List FrameInput) (s : MainState)
    (h : (frameLoop inputs s).status = .pending) :
    (frameLoop inputs s).out.isRunning = true := by
  induction inputs generalizing s with
  | nil =>
    by_cases hrun : s.isRunning = true
    · simp [frameLoop, hrun]
    · simp [frameLoop, hrun] at h
  | cons input rest ih =>
    by_cases hrun : s.isRunning = true
    · have hcons : frameLoop (input :: rest) s
          = (drawFrame input s).andThen (frameLoop rest) := by
        simp [frameLoop, hrun]
      rw [hcons] at h ⊢
      by_cases hret : (drawFrame input s).status = .returned
      · rw [andThen_returned _ _ hret] at h ⊢
        exact ih _ h
      · rw [andThen_stopped _ _ hret] at h
        unfold drawFrame at h
        simp only at h
        repeat' split at h
        all_goals simp at h
    · simp [frameLoop, hrun] at h

/-- C4, counterexample: the present of the first iteration reports
`VK_ERROR_DEVICE_LOST` (not staleness) while its submit succeeds; the loop runs
the next iteration and is still running after it. -/
theorem present_failure_counterexample :
    lostPresentFrame.presentResult = .VK_ERROR_DEVICE_LOST
      ∧ lostPresentFrame.submitResult = .VK_SUCCESS
      ∧ (frameLoop [lostPresentFrame, sampleFrame (.other 0) 1] sampleLoopState).status
          = .pending
      ∧ (frameLoop [lostPresentFrame, sampleFrame (.other 0) 1] sampleLoopState).calls
          = (drawFrame lostPresentFrame sampleLoopState).calls
            ++ [.SDL_PollEvent, .vkWaitForFences 701, .vkAcquireNextImageKHR 7 501,
                .assignImagesInFlight 1 701, .vkResetFences 701,
                .vkQueueSubmit 501 .VK_PIPELINE_STAGE_COLOR_ATTACHMENT_OUTPUT_BIT 401 601 701,
                .vkQueuePresentKHR 601 7 1, .assignCurrentFrame 0] :=
  ⟨rfl, rfl, rfl, rfl⟩

/-- C4, amended: when startup returned, the loop is still running after the
iterations `before`, and the queue submit of the next iteration returns
anything but `VK_SUCCESS`, the run of `main` consists of the startup, the
iterations `before`, the failing iteration up to its submit, the error
notification with the message of the exception, and the teardown: whatever
iterations are recorded after the failing one, none of them runs. -/
theorem submit_failure_fatal (env : MainEnv) (before later : List FrameInput)
    (input : FrameInput)
    (inFlightFence imageAvailable renderFinished imageFence commandBuffer : Handle)
    (hframes : env.frames = before ++ input :: later)
    (hstart : (loopEntry env).status = .returned)
    (hreach : (loopAfter env before).status = .pending)
    (hfence : (loopAfter env before).out.vkInFlightFences[(loopAfter env before).out.currentFrame]?
      = some inFlightFence)
    (havailable : (loopAfter env before).out.vkImageAvailableSemaphores[
      (loopAfter env before).out.currentFrame]? = some imageAvailable)
    (hfinished : (loopAfter env before).out.vkRenderFinishedSemaphores[
      (loopAfter env before).out.currentFrame]? = some renderFinished)
    (himage : (loopAfter env before).out.vkImagesInFlight[input.imageIndex]? = some imageFence)
    (hbuffer : (loopAfter env before).out.vkCommandBuffers[input.imageIndex]?
      = some commandBuffer)
    (hsubmit : input.submitResult ≠ .VK_SUCCESS) :
    (main env).calls =
      (loopEntry env).calls ++ (loopAfter env before).calls
        ++ ([Call.SDL_PollEvent, .vkWaitForFences inFlightFence,
              .vkAcquireNextImageKHR (loopAfter env before).out.vkSwapchain imageAvailable]
            ++ (if imageFence ≠ VK_NULL_HANDLE then [.vkWaitForFences imageFence] else [])
            ++ [.assignImagesInFlight input.imageIndex inFlightFence,
                .vkResetFences inFlightFence,
                .vkQueueSubmit imageAvailable .VK_PIPELINE_STAGE_COLOR_ATTACHMENT_OUTPUT_BIT
                  commandBuffer renderFinished inFlightFence])
        ++ [.SDL_ShowSimpleMessageBox "failed to submit draw command buffer!"]
        ++ (teardown (drawFrame input (loopAfter env before).out).out).calls := by
  have hrun := frameLoop_pending_running before (loopEntry env).out hreach
  have hdraw := drawFrame_run input (loopAfter env before).out inFlightFence imageAvailable
    renderFinished imageFence commandBuffer hfence havailable hfinished himage hbuffer
  have hstatus : (drawFrame input (loopAfter env before).out).status
      = .thrown "failed to submit draw command buffer!" := by
    rw [hdraw]
    simp [hsubmit]
  have hcalls : (drawFrame input (loopAfter env before).out).calls =
      [Call.SDL_PollEvent, .vkWaitForFences inFlightFence,
        .vkAcquireNextImageKHR (loopAfter env before).out.vkSwapchain imageAvailable]
      ++ (if imageFence ≠ VK_NULL_HANDLE then [.vkWaitForFences imageFence] else [])
      ++ [.assignImagesInFlight input.imageIndex inFlightFence,
          .vkResetFences inFlightFence,
          .vkQueueSubmit imageAvailable .VK_PIPELINE_STAGE_COLOR_ATTACHMENT_OUTPUT_BIT
            commandBuffer renderFinished inFlightFence] := by
    rw [hdraw]
    simp [hsubmit]
  have hloop : frameLoop (input :: later) (loopAfter env before).out
      = drawFrame input (loopAfter env before).out := by
    have hrun2 : (loopAfter env before).out.isRunning = true := hrun
    simp only [frameLoop, hrun2, if_true]
    exact andThen_stopped _ _ (by rw [hstatus]; simp)
  have htry : tryBlock env =
      ⟨(loopEntry env).calls ++ ((loopAfter env before).calls
          ++ (drawFrame input (loopAfter env before).out).calls),
        (drawFrame input (loopAfter env before).out).out,
        (drawFrame input (loopAfter env before).out).status⟩ := by
    unfold tryBlock
    have hstart2 : (startup env.startup (initialState env.startup)).status = .returned := hstart
    rw [andThen_returned _ _ hstart2, hframes]
    have happ := frameLoop_append before (input :: later) (loopEntry env).out hreach
    have hloop2 : frameLoop (input :: later) (frameLoop before (loopEntry env).out).out
        = drawFrame input (loopAfter env before).out := hloop
    rw [hloop2] at happ
    have happ2 : frameLoop (before ++ input :: later)
        (startup env.startup (initialState env.startup)).out = _ := happ
    rw [happ2]
    rfl
  have hthrown : (tryBlock env).status = .thrown "failed to submit draw command buffer!" := by
    rw [htry]
    exact hstatus
  rw [main_of_thrown env _ hthrown, htry]
  simp only
  rw [hcalls]
  simp [List.append_assoc]

/-- C4, witness of the amended statement: the second iteration of
`lostSubmitRun` fails to submit after waiting on fence `700`, which holds
image `0`; the run ends with the notification and the teardown, and the two
iterations recorded after it leave no call. -/
theorem submit_failure_fatal_witness :
    lostSubmitFrame.submitResult = .VK_ERROR_DEVICE_LOST
      ∧ (main lostSubmitRun).calls =
        (loopEntry lostSubmitRun).calls
          ++ (loopAfter lostSubmitRun [sampleFrame (.other 0) 0]).calls
          ++ [.SDL_PollEvent, .vkWaitForFences 701, .vkAcquireNextImageKHR 7 501,
              .vkWaitForFences 700, .assignImagesInFlight 0 701, .vkResetFences 701,
              .vkQueueSubmit 501 .VK_PIPELINE_STAGE_COLOR_ATTACHMENT_OUTPUT_BIT 400 601 701]
          ++ [.SDL_ShowSimpleMessageBox "failed to submit draw command buffer!"]
          ++ (teardown (drawFrame lostSubmitFrame
                (loopAfter lostSubmitRun [sampleFrame (.other 0) 0]).out).out).calls :=
  ⟨rfl,
    submit_failure_fatal lostSubmitRun [sampleFrame (.other 0) 0]
      [sampleFrame (.other 0) 1, sampleFrame .SDL_QUIT 2] lostSubmitFrame 701 501 601 700 400
      rfl rfl rfl rfl rfl rfl rfl rfl (by decide)⟩

/-! ## The teardown -/

/-- A composition issues no device-idle wait when its parts issue none. -/
theorem andThen_no_idle {σ : Type} (first : Ran σ) (next : σ → Ran σ)
    (hfirst : Call.vkDeviceWaitIdle ∉ first.calls)
    (hnext : ∀ x, Call.vkDeviceWaitIdle ∉ (next x).calls) :
    Call.vkDeviceWaitIdle ∉ (first.andThen next).calls := by
  by_cases hret : first.status = .returned
  · rw [andThen_returned _ _ hret]
    simp only [List.mem_append, not_or]
    exact ⟨hfirst, hnext _⟩
  · rw [andThen_stopped _ _ hret]
    exact hfirst

/-- `CreateVulkanSwapchain` issues no device-idle wait. -/
theorem createSwapchain_no_idle (env : SwapchainEnv) (width height : Int) (out : SwapchainOut) :
    Call.vkDeviceWaitIdle ∉ (CreateVulkanSwapchain env width height out).calls := by
  unfold CreateVulkanSwapchain
  repeat' split
  all_goals simp

/-- `CreateVulkanSyncObjects` issues no device-idle wait. -/
theorem createSyncObjects_no_idle (env : SyncEnv) (remaining i : Nat) (out : SyncObjects) :
    Call.vkDeviceWaitIdle ∉ (createSyncObjectsFrom env remaining i out).calls := by
  induction remaining generalizing i out with
  | zero => simp [createSyncObjectsFrom]
  | succ n ih =>
    simp only [createSyncObjectsFrom]
    apply andThen_no_idle
    · unfold createSyncObjectsAt
      repeat' split
      all_goals simp
    · intro x
      exact ih _ _

/-- The startup calls issue no device-idle wait. -/
theorem startup_no_idle (env : StartupEnv) (s : MainState) :
    Call.vkDeviceWaitIdle ∉ (startup env s).calls := by
  have hstep : ∀ step update s, Call.vkDeviceWaitIdle ∉ (startupStep env step update s).calls := by
    intro step update s
    unfold startupStep
    split <;> simp
  unfold startup
  refine andThen_no_idle _ _ (hstep _ _ _) (fun _ => ?_)
  refine andThen_no_idle _ _ (hstep _ _ _) (fun _ => ?_)
  refine andThen_no_idle _ _ (by simp) (fun _ => ?_)
  refine andThen_no_idle _ _ (hstep _ _ _) (fun _ => ?_)
  refine andThen_no_idle _ _ (hstep _ _ _) (fun _ => ?_)
  refine andThen_no_idle _ _ (hstep _ _ _) (fun _ => ?_)
  refine andThen_no_idle _ _ (createSwapchain_no_idle _ _ _ _) (fun _ => ?_)
  refine andThen_no_idle _ _ (hstep _ _ _) (fun _ => ?_)
  refine andThen_no_idle _ _ (hstep _ _ _) (fun _ => ?_)
  refine andThen_no_idle _ _ (hstep _ _ _) (fun _ => ?_)
  refine andThen_no_idle _ _ (hstep _ _ _) (fun _ => ?_)
  refine andThen_no_idle _ _ (hstep _ _ _) (fun _ => ?_)
  refine andThen_no_idle _ _ (hstep _ _ _) (fun _ => ?_)
  refine andThen_no_idle _ _ (hstep _ _ _) (fun _ => ?_)
  exact createSyncObjects_no_idle _ _ _ _

/-- An iteration of the frame loop issues no device-idle wait. -/
theorem drawFrame_no_idle (input : FrameInput) (s : MainState) :
    Call.vkDeviceWaitIdle ∉ (drawFrame input s).calls := by
  unfold drawFrame
  simp only
  repeat' split
  all_goals simp

/-- The frame loop issues no device-idle wait. -/
theorem frameLoop_no_idle (inputs : List FrameInput) (s : MainState) :
    Call.vkDeviceWaitIdle ∉ (frameLoop inputs s).calls := by
  induction inputs generalizing s with
  | nil =>
    simp only [frameLoop]
    split <;> simp
  | cons input rest ih =>
    simp only [frameLoop]
    split
    · exact andThen_no_idle _ _ (drawFrame_no_idle _ _) (fun x => ih x)
    · simp

/-- The teardown issues no device-idle wait. -/
theorem teardown_no_idle (s : MainState) : Call.vkDeviceWaitIdle ∉ (teardown s).calls := by
  have hfrom : ∀ remaining i s,
      Call.vkDeviceWaitIdle ∉ (destroySyncObjectsFrom remaining i s).calls := by
    intro remaining
    induction remaining with
    | zero => intro i s; simp [destroySyncObjectsFrom]
    | succ n ih =>
      intro i s
      simp only [destroySyncObjectsFrom]
      apply andThen_no_idle
      · unfold destroySyncObjectsAt
        repeat' split
        all_goals simp
      · intro x
        exact ih _ _
  unfold teardown
  apply andThen_no_idle
  · exact hfrom _ _ _
  · intro x
    simp

/-- C5, counterexample: `quitRun` leaves the loop by a quit request and
returns; its teardown destroys semaphores, fences, the command pool, a
framebuffer, an image view and the swapchain, and `vkDeviceWaitIdle` occurs
nowhere in the run, so none precedes the first destroy. -/
theorem teardown_idle_counterexample :
    (main quitRun).status = .returned
      ∧ Call.vkDestroySemaphore 600 ∈ (main quitRun).calls
      ∧ Call.vkDestroyFence 700 ∈ (main quitRun).calls
      ∧ Call.vkDestroyCommandPool 11 ∈ (main quitRun).calls
      ∧ Call.vkDestroyFramebuffer 300 ∈ (main quitRun).calls
      ∧ Call.vkDestroyImageView 200 ∈ (main quitRun).calls
      ∧ Call.vkDestroySwapchainKHR 7 ∈ (main quitRun).calls
      ∧ Call.vkDeviceWaitIdle ∉ (main quitRun).calls := by
  refine ⟨rfl, ?_, ?_, ?_, ?_, ?_, ?_, ?_⟩ <;> decide

/-! ## Present mode, usage and replacement of the swapchain -/

/-- Every `vkCreateSwapchainKHR` that `CreateVulkanSwapchain` issues carries the
present mode of lines 419-420 and the usage flags of lines 433-446. -/
theorem createInfo_mode_of_mem (env : SwapchainEnv) (width height : Int) (out : SwapchainOut)
    (swapInfo : VkSwapchainCreateInfoKHR)
    (h : Call.vkCreateSwapchainKHR swapInfo ∈ (CreateVulkanSwapchain env width height out).calls) :
    GetVulkanPresentationMode env.modeCountResult env.modeListResult env.availableModes
        .VK_PRESENT_MODE_FIFO_RELAXED_KHR = .ok swapInfo.presentMode
      ∧ swapUsageFlags env.surfaceCapabilities = .ok swapInfo.imageUsage := by
  unfold CreateVulkanSwapchain at h
  split at h
  · simp at h
  · split at h
    · simp at h
    · rename_i presentMode hmode
      split at h
      · simp at h
      · rename_i usageFlags husage
        split at h
        · simp at h
        · simp at h
        · split at h <;>
          · simp only [List.mem_append, List.mem_singleton, Call.vkCreateSwapchainKHR.injEq] at h
            rcases h with h | h
            · split at h <;> simp at h
            · subst h
              exact ⟨hmode, husage⟩

/-- The test of the loop of lines 366-368. -/
theorem any_mode_iff (availableModes : List VkPresentModeKHR) (outMode : VkPresentModeKHR) :
    availableModes.any (fun mode => mode == outMode) = true ↔ outMode ∈ availableModes := by
  simp [List.any_eq_true]

/-- C11: when both queries succeed, `GetVulkanPresentationMode` leaves the
requested mode as it is when it occurs in the list of available modes and
otherwise sets it to FIFO, so the result is the requested mode or FIFO; every
creation request of `CreateVulkanSwapchain` carries FIFO_RELAXED when that is
available and FIFO otherwise. -/
theorem presentMode_fallback :
    (∀ (availableModes : List VkPresentModeKHR) (requested : VkPresentModeKHR),
      GetVulkanPresentationMode .VK_SUCCESS .VK_SUCCESS availableModes requested
          = .ok (if requested ∈ availableModes then requested else .VK_PRESENT_MODE_FIFO_KHR)
        ∧ (GetVulkanPresentationMode .VK_SUCCESS .VK_SUCCESS availableModes requested
              = .ok requested
            ∨ GetVulkanPresentationMode .VK_SUCCESS .VK_SUCCESS availableModes requested
              = .ok .VK_PRESENT_MODE_FIFO_KHR))
      ∧ (∀ (env : SwapchainEnv) (width height : Int) (out : SwapchainOut)
          (swapInfo : VkSwapchainCreateInfoKHR),
          Call.vkCreateSwapchainKHR swapInfo
              ∈ (CreateVulkanSwapchain env width height out).calls →
            swapInfo.presentMode =
              if VkPresentModeKHR.VK_PRESENT_MODE_FIFO_RELAXED_KHR ∈ env.availableModes then
                .VK_PRESENT_MODE_FIFO_RELAXED_KHR
              else .VK_PRESENT_MODE_FIFO_KHR) := by
  have hmode : ∀ (availableModes : List VkPresentModeKHR) (requested : VkPresentModeKHR),
      GetVulkanPresentationMode .VK_SUCCESS .VK_SUCCESS availableModes requested
        = .ok (if requested ∈ availableModes then requested else .VK_PRESENT_MODE_FIFO_KHR) := by
    intro availableModes requested
    unfold GetVulkanPresentationMode
    simp only [ne_eq, not_true_eq_false, if_false]
    by_cases hmem : requested ∈ availableModes
    · rw [if_pos ((any_mode_iff _ _).2 hmem), if_pos hmem]
    · rw [if_neg (fun hany => hmem ((any_mode_iff _ _).1 hany)), if_neg hmem]
  refine ⟨fun availableModes requested => ⟨hmode _ _, ?_⟩, ?_⟩
  · rw [hmode]
    by_cases hmem : requested ∈ availableModes
    · left; rw [if_pos hmem]
    · right; rw [if_neg hmem]
  · intro env width height out swapInfo hcall
    have hinfo := (createInfo_mode_of_mem env width height out swapInfo hcall).1
    unfold GetVulkanPresentationMode at hinfo
    split at hinfo
    · cases hinfo
    · split at hinfo
      · cases hinfo
      · split at hinfo
        · rename_i hany
          rw [if_pos ((any_mode_iff _ _).1 hany)]
          injection hinfo with hinfo
          exact hinfo.symm
        · rename_i hany
          rw [if_neg (fun hmem => hany ((any_mode_iff _ _).2 hmem))]
          injection hinfo with hinfo
          exact hinfo.symm

/-- C11, witness: FIFO_RELAXED is not among the modes of `sampleSwapchainEnv`,
and the creation request carries FIFO. -/
theorem presentMode_fallback_witness :
    VkPresentModeKHR.VK_PRESENT_MODE_FIFO_RELAXED_KHR ∉ sampleSwapchainEnv.availableModes
      ∧ Call.vkCreateSwapchainKHR sampleSwapInfo
          ∈ (CreateVulkanSwapchain sampleSwapchainEnv WIDTH HEIGHT sampleSwapchainOut).calls
      ∧ sampleSwapInfo.presentMode = .VK_PRESENT_MODE_FIFO_KHR :=
  ⟨by decide, by decide,
    presentMode_fallback.2 sampleSwapchainEnv WIDTH HEIGHT sampleSwapchainOut sampleSwapInfo
      (by decide)⟩

/-- Masking with the color-attachment bit leaves nothing or the bit. -/
theorem and_attachment_bit (flags : Nat) :
    flags &&& VK_IMAGE_USAGE_COLOR_ATTACHMENT_BIT = 0
      ∨ flags &&& VK_IMAGE_USAGE_COLOR_ATTACHMENT_BIT = VK_IMAGE_USAGE_COLOR_ATTACHMENT_BIT := by
  have hbit : VK_IMAGE_USAGE_COLOR_ATTACHMENT_BIT = 2 ^ 4 := rfl
  rw [hbit]
  by_cases h : flags.testBit 4 = true
  · right
    apply Nat.eq_of_testBit_eq
    intro i
    rw [Nat.testBit_and, Nat.testBit_two_pow]
    by_cases hi : 4 = i
    · subst hi
      simp [h]
    · simp [hi]
  · left
    apply Nat.eq_of_testBit_eq
    intro i
    rw [Nat.testBit_and, Nat.testBit_two_pow]
    by_cases hi : 4 = i
    · subst hi
      simp [h]
    · simp [hi]

/-- The usage check of lines 433-446 in terms of the color-attachment bit. -/
theorem swapUsageFlags_eq (surfaceCapabilities : VkSurfaceCapabilitiesKHR) :
    swapUsageFlags surfaceCapabilities =
      if surfaceCapabilities.supportedUsageFlags &&& VK_IMAGE_USAGE_COLOR_ATTACHMENT_BIT = 0 then
        .error "ted image usage flag:"
      else .ok VK_IMAGE_USAGE_COLOR_ATTACHMENT_BIT := by
  have hcomm : VK_IMAGE_USAGE_COLOR_ATTACHMENT_BIT &&& surfaceCapabilities.supportedUsageFlags
      = surfaceCapabilities.supportedUsageFlags &&& VK_IMAGE_USAGE_COLOR_ATTACHMENT_BIT :=
    Nat.and_comm _ _
  have hdrop : "Vulkan: unsupported image usage flag:".drop VK_IMAGE_USAGE_COLOR_ATTACHMENT_BIT
      = "ted image usage flag:" := by decide
  have hor : VK_IMAGE_USAGE_COLOR_ATTACHMENT_BIT ||| VK_IMAGE_USAGE_COLOR_ATTACHMENT_BIT
      = VK_IMAGE_USAGE_COLOR_ATTACHMENT_BIT := by decide
  unfold swapUsageFlags
  simp only [hcomm, hdrop, hor]
  rcases and_attachment_bit surfaceCapabilities.supportedUsageFlags with h | h
  · rw [h]
    rfl
  · rw [h]
    rfl

/-- C12: when the supported usage flags lack the color-attachment bit,
`CreateVulkanSwapchain` throws without having issued any call, so that no
swapchain was destroyed or created, and the three out-parameters are as the
caller passed them; when the bit is present the usage check passes with
exactly the color-attachment bit, which every creation request carries. -/
theorem usage_checked (env : SwapchainEnv) (width height : Int) (out : SwapchainOut) :
    (env.surfaceCapabilities.supportedUsageFlags &&& VK_IMAGE_USAGE_COLOR_ATTACHMENT_BIT = 0 →
        (∃ message, (CreateVulkanSwapchain env width height out).status = .thrown message)
          ∧ (CreateVulkanSwapchain env width height out).calls = []
          ∧ (CreateVulkanSwapchain env width height out).out = out)
      ∧ (env.surfaceCapabilities.supportedUsageFlags &&& VK_IMAGE_USAGE_COLOR_ATTACHMENT_BIT ≠ 0 →
        swapUsageFlags env.surfaceCapabilities = .ok VK_IMAGE_USAGE_COLOR_ATTACHMENT_BIT
          ∧ ∀ swapInfo, Call.vkCreateSwapchainKHR swapInfo
                ∈ (CreateVulkanSwapchain env width height out).calls →
              swapInfo.imageUsage = VK_IMAGE_USAGE_COLOR_ATTACHMENT_BIT) := by
  constructor
  · intro hlack
    have husage : swapUsageFlags env.surfaceCapabilities = .error "ted image usage flag:" := by
      rw [swapUsageFlags_eq, if_pos hlack]
    unfold CreateVulkanSwapchain
    split
    · exact ⟨⟨_, rfl⟩, rfl, rfl⟩
    · split
      · exact ⟨⟨_, rfl⟩, rfl, rfl⟩
      · rw [husage]
        exact ⟨⟨_, rfl⟩, rfl, rfl⟩
  · intro hbit
    have husage : swapUsageFlags env.surfaceCapabilities
        = .ok VK_IMAGE_USAGE_COLOR_ATTACHMENT_BIT := by
      rw [swapUsageFlags_eq, if_neg hbit]
    refine ⟨husage, ?_⟩
    intro swapInfo hcall
    have hinfo := (createInfo_mode_of_mem env width height out swapInfo hcall).2
    rw [husage] at hinfo
    injection hinfo with hinfo
    exact hinfo.symm

/-- C12, witness: on `noAttachmentSwapchainEnv` the call throws with no call
issued and the previous swapchain `7` still in the out-parameter; on
`sampleSwapchainEnv` the request carries the color-attachment bit. -/
theorem usage_checked_witness :
    noAttachmentSwapchainEnv.surfaceCapabilities.supportedUsageFlags
        &&& VK_IMAGE_USAGE_COLOR_ATTACHMENT_BIT = 0
      ∧ (CreateVulkanSwapchain noAttachmentSwapchainEnv WIDTH HEIGHT previousSwapchainOut).calls
          = []
      ∧ (CreateVulkanSwapchain noAttachmentSwapchainEnv WIDTH HEIGHT previousSwapchainOut).out
          = previousSwapchainOut
      ∧ (CreateVulkanSwapchain noAttachmentSwapchainEnv WIDTH HEIGHT previousSwapchainOut).status
          = .thrown "ted image usage flag:"
      ∧ sampleSwapInfo.imageUsage = VK_IMAGE_USAGE_COLOR_ATTACHMENT_BIT :=
  have hlack := (usage_checked noAttachmentSwapchainEnv WIDTH HEIGHT previousSwapchainOut).1
    (by decide)
  have hbit := (usage_checked sampleSwapchainEnv WIDTH HEIGHT sampleSwapchainOut).2 (by decide)
  ⟨by decide, hlack.2.1, hlack.2.2, rfl, hbit.2 sampleSwapInfo (by decide)⟩

/-- C13, counterexample: called with the previous swapchain `7`,
`CreateVulkanSwapchain` destroys `7` first and creates the new chain second;
when the creation fails, `7` has been destroyed all the same and the
out-parameter still holds it. -/
theorem replace_order_counterexample :
    previousSwapchainOut.outSwapchain ≠ VK_NULL_HANDLE
      ∧ (CreateVulkanSwapchain sampleSwapchainEnv WIDTH HEIGHT previousSwapchainOut).calls
          = [.vkDestroySwapchainKHR 7, .vkCreateSwapchainKHR sampleSwapInfo]
      ∧ (CreateVulkanSwapchain failingCreateSwapchainEnv WIDTH HEIGHT previousSwapchainOut).status
          = .thrown "Vulkan: Failed to create Swapchain"
      ∧ (CreateVulkanSwapchain failingCreateSwapchainEnv WIDTH HEIGHT previousSwapchainOut).calls
          = [.vkDestroySwapchainKHR 7, .vkCreateSwapchainKHR sampleSwapInfo]
      ∧ (CreateVulkanSwapchain failingCreateSwapchainEnv WIDTH HEIGHT
            previousSwapchainOut).out.outSwapchain = 7 :=
  ⟨by decide, rfl, rfl, rfl, rfl⟩

/-- C13, amended: whenever `CreateVulkanSwapchain` is called with a previous
(non-null) swapchain and gets as far as requesting the new chain, its calls
are the destroy of the previous chain followed by the creation request, in
this order, whether or not the creation succeeds; when the creation fails the
function throws and the out-parameter still holds the destroyed handle. -/
theorem replace_order (env : SwapchainEnv) (width height : Int) (out : SwapchainOut)
    (swapInfo : VkSwapchainCreateInfoKHR)
    (hprevious : out.outSwapchain ≠ VK_NULL_HANDLE)
    (hcall : Call.vkCreateSwapchainKHR swapInfo
      ∈ (CreateVulkanSwapchain env width height out).calls) :
    (CreateVulkanSwapchain env width height out).calls
        = [.vkDestroySwapchainKHR out.outSwapchain, .vkCreateSwapchainKHR swapInfo]
      ∧ (env.createResult ≠ .VK_SUCCESS →
          (CreateVulkanSwapchain env width height out).status
              = .thrown "Vulkan: Failed to create Swapchain"
            ∧ (CreateVulkanSwapchain env width height out).out = out) := by
  unfold CreateVulkanSwapchain at hcall ⊢
  split at hcall
  · simp at hcall
  · rename_i hcaps
    rw [if_neg hcaps]
    split at hcall
    · simp at hcall
    · split at hcall
      · simp at hcall
      · split at hcall
        · simp at hcall
        · simp at hcall
        · simp only [hprevious, ne_eq, not_false_eq_true, if_true] at hcall ⊢
          split at hcall
          · rename_i hfail
            simp only [List.mem_append, List.mem_singleton, List.mem_cons, List.mem_nil_iff,
              or_false, Call.vkCreateSwapchainKHR.injEq, false_or] at hcall
            rcases hcall with hcall | hcall
            · cases hcall
            · subst hcall
              simp [hfail]
          · rename_i hok
            simp only [List.mem_append, List.mem_singleton, List.mem_cons, List.mem_nil_iff,
              or_false, Call.vkCreateSwapchainKHR.injEq, false_or] at hcall
            rcases hcall with hcall | hcall
            · cases hcall
            · subst hcall
              simp [hok]

/-- C13, witness of the amended statement: replacing swapchain `7` under a
driver that fails to create the new chain. -/
theorem replace_order_witness :
    (CreateVulkanSwapchain failingCreateSwapchainEnv WIDTH HEIGHT previousSwapchainOut).calls
        = [.vkDestroySwapchainKHR 7, .vkCreateSwapchainKHR sampleSwapInfo]
      ∧ (CreateVulkanSwapchain failingCreateSwapchainEnv WIDTH HEIGHT previousSwapchainOut).out
          = previousSwapchainOut :=
  have h := replace_order failingCreateSwapchainEnv WIDTH HEIGHT previousSwapchainOut
    sampleSwapInfo (by decide) (by decide)
  ⟨h.1, (h.2 (by decide)).2⟩

/-! ## Choice of the physical device and creation of the logical device -/

/-- Reordering of a disjunction. -/
theorem or_rotate (a b c : Prop) : ((a ∨ b) ∨ c) ↔ (b ∨ a ∨ c) := by
  tauto

/-- One pass of the loop of `GetVulkanQueueFamilies`. -/
theorem queueFamiliesFrom_cons (family : QueueFamily) (rest : List QueueFamily) (i : Nat)
    (indices : QueueFamilyIndices) :
    queueFamiliesFrom (family :: rest) i indices =
      if (QueueFamilyIndices.mk
            (if 0 < family.queueCount ∧ family.queueFlags &&& VK_QUEUE_GRAPHICS_BIT ≠ 0 then
              some i else indices.graphicsFamily)
            (if family.presentSupport = true then some i
              else indices.presentFamily)).isComplete = true then
        QueueFamilyIndices.mk
          (if 0 < family.queueCount ∧ family.queueFlags &&& VK_QUEUE_GRAPHICS_BIT ≠ 0 then
            some i else indices.graphicsFamily)
          (if family.presentSupport = true then some i else indices.presentFamily)
      else
        queueFamiliesFrom rest (i + 1)
          (QueueFamilyIndices.mk
            (if 0 < family.queueCount ∧ family.queueFlags &&& VK_QUEUE_GRAPHICS_BIT ≠ 0 then
              some i else indices.graphicsFamily)
            (if family.presentSupport = true then some i else indices.presentFamily)) := by
  simp only [queueFamiliesFrom]
  by_cases hgraphics : 0 < family.queueCount
      ∧ family.queueFlags &&& VK_QUEUE_GRAPHICS_BIT ≠ 0 <;>
  by_cases hpresent : family.presentSupport = true <;>
  simp [hgraphics, hpresent]

/-- The loop of `GetVulkanQueueFamilies` ends with both indices set exactly
when each of them was set before or one of the families visited sets it. -/
theorem queueFamiliesFrom_complete (families : List QueueFamily) (i : Nat)
    (indices : QueueFamilyIndices) :
    (queueFamiliesFrom families i indices).isComplete = true ↔
      (indices.graphicsFamily.isSome = true
          ∨ ∃ family ∈ families,
              0 < family.queueCount ∧ family.queueFlags &&& VK_QUEUE_GRAPHICS_BIT ≠ 0)
        ∧ (indices.presentFamily.isSome = true
          ∨ ∃ family ∈ families, family.presentSupport = true) := by
  induction families generalizing i indices with
  | nil => simp [queueFamiliesFrom, QueueFamilyIndices.isComplete]
  | cons family rest ih =>
    rw [queueFamiliesFrom_cons]
    have hgraphics : (if 0 < family.queueCount
          ∧ family.queueFlags &&& VK_QUEUE_GRAPHICS_BIT ≠ 0 then
          some i else indices.graphicsFamily).isSome = true ↔
        ((0 < family.queueCount ∧ family.queueFlags &&& VK_QUEUE_GRAPHICS_BIT ≠ 0)
          ∨ indices.graphicsFamily.isSome = true) := by
      by_cases hcond : 0 < family.queueCount
          ∧ family.queueFlags &&& VK_QUEUE_GRAPHICS_BIT ≠ 0
      · simp only [hcond, if_true, Option.isSome_some, true_or, and_self, ne_eq,
          not_false_eq_true]
      · simp only [hcond, if_false, false_or]
    have hpresent : (if family.presentSupport = true then some i
          else indices.presentFamily).isSome = true ↔
        (family.presentSupport = true ∨ indices.presentFamily.isSome = true) := by
      by_cases hcond : family.presentSupport = true
      · simp only [hcond, if_true, Option.isSome_some, true_or]
      · simp only [hcond, if_false, false_or, Bool.false_eq_true]
    obtain ⟨updated, hupdated⟩ : ∃ updated, updated = QueueFamilyIndices.mk
        (if 0 < family.queueCount ∧ family.queueFlags &&& VK_QUEUE_GRAPHICS_BIT ≠ 0 then
          some i else indices.graphicsFamily)
        (if family.presentSupport = true then some i else indices.presentFamily) := ⟨_, rfl⟩
    rw [← hupdated]
    have hg : updated.graphicsFamily.isSome = true ↔
        ((0 < family.queueCount ∧ family.queueFlags &&& VK_QUEUE_GRAPHICS_BIT ≠ 0)
          ∨ indices.graphicsFamily.isSome = true) := by
      rw [hupdated]
      exact hgraphics
    have hp : updated.presentFamily.isSome = true ↔
        (family.presentSupport = true ∨ indices.presentFamily.isSome = true) := by
      rw [hupdated]
      exact hpresent
    by_cases hcomplete : updated.isComplete = true
    · rw [if_pos hcomplete]
      have hboth := hcomplete
      simp only [QueueFamilyIndices.isComplete, Bool.and_eq_true] at hboth
      rw [hg, hp] at hboth
      simp only [hcomplete, List.mem_cons, exists_eq_or_imp, true_iff]
      exact ⟨hboth.1.elim (fun h => Or.inr (Or.inl h)) Or.inl,
        hboth.2.elim (fun h => Or.inr (Or.inl h)) Or.inl⟩
    · rw [if_neg hcomplete, ih, hg, hp]
      simp only [List.mem_cons, exists_eq_or_imp]
      rw [or_rotate, or_rotate]

/-- The test `IsVulkanDeviceCompatible` of the source holds exactly for the
adapters with a graphics family and a presentation family. -/
theorem compatible_iff (device : PhysicalDevice) :
    IsVulkanDeviceCompatible device = true ↔ HasGraphicsAndPresent device := by
  unfold IsVulkanDeviceCompatible GetVulkanQueueFamilies HasGraphicsAndPresent
  rw [queueFamiliesFrom_complete]
  simp

/-- The search loop of lines 271-277 stops at the first adapter that passes
the test. -/
theorem find_compatible (before after : List PhysicalDevice) (device : PhysicalDevice)
    (hbefore : ∀ d ∈ before, ¬ HasGraphicsAndPresent d)
    (hdevice : HasGraphicsAndPresent device) :
    (before ++ device :: after).find? IsVulkanDeviceCompatible = some device := by
  induction before with
  | nil =>
    simp [List.find?, (compatible_iff device).2 hdevice]
  | cons first rest ih =>
    have hfirst : IsVulkanDeviceCompatible first = false := by
      cases hc : IsVulkanDeviceCompatible first with
      | false => rfl
      | true => exact absurd ((compatible_iff first).1 hc) (hbefore first (by simp))
    simp only [List.cons_append, List.find?, hfirst]
    exact ih (fun d hd => hbefore d (by simp [hd]))

/-- C14: starting from a null output handle, `GetVulkanPhysicalDevice` throws
when no adapter is enumerated; throws when no enumerated adapter has both a
queue family with at least one queue that supports graphics and a queue
family, possibly the same, that supports presentation; and otherwise returns
the handle (a valid, non-null one) of the first adapter in enumeration order
that has both. -/
theorem physicalDevice_chosen (physicalDevices : List PhysicalDevice) :
    (physicalDevices = [] →
        (GetVulkanPhysicalDevice physicalDevices VK_NULL_HANDLE).status
          = .thrown "Vulkan: No Physical Device (GPU) Found.")
      ∧ (physicalDevices ≠ [] → (∀ d ∈ physicalDevices, ¬ HasGraphicsAndPresent d) →
        (GetVulkanPhysicalDevice physicalDevices VK_NULL_HANDLE).status
          = .thrown "Vulkan: Unable to fin a compatible GPU")
      ∧ (∀ before device after, physicalDevices = before ++ device :: after →
        (∀ d ∈ before, ¬ HasGraphicsAndPresent d) → HasGraphicsAndPresent device →
        device.handle ≠ VK_NULL_HANDLE →
        (GetVulkanPhysicalDevice physicalDevices VK_NULL_HANDLE).status = .returned
          ∧ (GetVulkanPhysicalDevice physicalDevices VK_NULL_HANDLE).out = device.handle) := by
  refine ⟨?_, ?_, ?_⟩
  · rintro rfl
    rfl
  · intro hne hnone
    have hlen : ¬ physicalDevices.length = 0 := by
      intro h
      exact hne (List.length_eq_zero.1 h)
    have hfind : physicalDevices.find? IsVulkanDeviceCompatible = none := by
      rw [List.find?_eq_none]
      intro d hd hc
      exact hnone d hd ((compatible_iff d).1 hc)
    unfold GetVulkanPhysicalDevice
    rw [if_neg hlen, hfind]
    simp
  · intro before device after hlist hbefore hdevice hhandle
    have hlen : ¬ physicalDevices.length = 0 := by
      rw [hlist]
      simp
    have hfind := find_compatible before after device hbefore hdevice
    unfold GetVulkanPhysicalDevice
    rw [if_neg hlen, hlist, hfind]
    simp [hhandle]

/-- C14, witness: of `computeAdapter` and `bareAdapter`, in this order, only the
second has both kinds of family, and its handle `4` is returned; `computeAdapter`
alone is rejected. -/
theorem physicalDevice_chosen_witness :
    ¬ HasGraphicsAndPresent computeAdapter
      ∧ HasGraphicsAndPresent bareAdapter
      ∧ (GetVulkanPhysicalDevice [computeAdapter, bareAdapter] VK_NULL_HANDLE).status = .returned
      ∧ (GetVulkanPhysicalDevice [computeAdapter, bareAdapter] VK_NULL_HANDLE).out = 4
      ∧ (GetVulkanPhysicalDevice [computeAdapter] VK_NULL_HANDLE).status
          = .thrown "Vulkan: Unable to fin a compatible GPU"
      ∧ (GetVulkanPhysicalDevice [] VK_NULL_HANDLE).status
          = .thrown "Vulkan: No Physical Device (GPU) Found." :=
  have hcompute : ¬ HasGraphicsAndPresent computeAdapter := by
    intro h
    have := (compatible_iff computeAdapter).2 h
    exact absurd this (by decide)
  have hbare : HasGraphicsAndPresent bareAdapter := (compatible_iff bareAdapter).1 (by decide)
  have hchosen := (physicalDevice_chosen [computeAdapter, bareAdapter]).2.2
    [computeAdapter] bareAdapter [] rfl
    (by
      intro d hd
      rw [List.mem_singleton] at hd
      rw [hd]
      exact hcompute)
    hbare (by decide)
  have hrejected := (physicalDevice_chosen [computeAdapter]).2.1 (by simp)
    (by
      intro d hd
      rw [List.mem_singleton] at hd
      rw [hd]
      exact hcompute)
  ⟨hcompute, hbare, hchosen.1, hchosen.2, hrejected, (physicalDevice_chosen []).1 rfl⟩

/-- C15, counterexample: `bareAdapter` lacks the swapchain extension, and with
a driver that creates the device `CreateVulkanLogicalDevice` returns, having
created the device with no extension enabled. -/
theorem missing_extension_counterexample :
    VK_KHR_SWAPCHAIN_EXTENSION_NAME ∉ bareAdapter.extensions
      ∧ (CreateVulkanLogicalDevice sampleLogicalDeviceEnv bareAdapter ⟨0, 0, 0⟩).status
          = .returned
      ∧ (CreateVulkanLogicalDevice sampleLogicalDeviceEnv bareAdapter ⟨0, 0, 0⟩).calls
          = [.vkCreateDevice [0, 1] []]
      ∧ (CreateVulkanLogicalDevice sampleLogicalDeviceEnv bareAdapter ⟨0, 0, 0⟩).out
          = ⟨5, 12, 13⟩ :=
  ⟨by decide, rfl, rfl, rfl⟩

/-- C15, amended: for an adapter with a graphics family and a presentation
family whose extension list does not contain the swapchain extension, with
both extension queries succeeding, `CreateVulkanLogicalDevice` requests the
device with no extension enabled, and it fails exactly when that request
fails. -/
theorem missing_extension_tolerated (env : LogicalDeviceEnv) (physicalDevice : PhysicalDevice)
    (out : LogicalDeviceOut) (graphicsFamily presentFamily : Nat)
    (hgraphics : (GetVulkanQueueFamilies physicalDevice).graphicsFamily = some graphicsFamily)
    (hpresent : (GetVulkanQueueFamilies physicalDevice).presentFamily = some presentFamily)
    (hcount : env.extensionCountResult = .VK_SUCCESS)
    (hlist : env.extensionListResult = .VK_SUCCESS)
    (hmissing : VK_KHR_SWAPCHAIN_EXTENSION_NAME ∉ physicalDevice.extensions) :
    (CreateVulkanLogicalDevice env physicalDevice out).calls
        = [.vkCreateDevice (uniqueQueueFamilies graphicsFamily presentFamily) []]
      ∧ (env.createResult = .VK_SUCCESS →
          (CreateVulkanLogicalDevice env physicalDevice out).status = .returned)
      ∧ (env.createResult ≠ .VK_SUCCESS →
          (CreateVulkanLogicalDevice env physicalDevice out).status
            = .thrown "Vulkan: Failed To create logical device") := by
  have hfilter : physicalDevice.extensions.filter
      (fun extensionName => extensionName == VK_KHR_SWAPCHAIN_EXTENSION_NAME) = [] := by
    rw [List.filter_eq_nil_iff]
    intro name hname hsame
    rw [beq_iff_eq] at hsame
    exact hmissing (hsame ▸ hname)
  unfold CreateVulkanLogicalDevice
  simp only [hgraphics, hpresent, hcount, hlist, hfilter, ne_eq, not_true_eq_false, if_false]
  by_cases hcreate : env.createResult = .VK_SUCCESS <;> simp [hcreate]

/-- C15, witness of the amended statement on `bareAdapter`. -/
theorem missing_extension_tolerated_witness :
    VK_KHR_SWAPCHAIN_EXTENSION_NAME ∉ bareAdapter.extensions
      ∧ (CreateVulkanLogicalDevice sampleLogicalDeviceEnv bareAdapter ⟨0, 0, 0⟩).calls
          = [.vkCreateDevice (uniqueQueueFamilies 0 1) []]
      ∧ (CreateVulkanLogicalDevice sampleLogicalDeviceEnv bareAdapter ⟨0, 0, 0⟩).status
          = .returned :=
  have h := missing_extension_tolerated sampleLogicalDeviceEnv bareAdapter ⟨0, 0, 0⟩ 0 1
    rfl rfl rfl rfl (by decide)
  ⟨by decide, h.1, h.2.1 rfl⟩

/-! ## Synchronisation objects and frame slots -/

/-- One pass of the creation loop, when it returns: three creation calls,
the fence signaled, and no vector changes its length. -/
theorem createSyncObjectsAt_returned (env : SyncEnv) (i : Nat) (out : SyncObjects)
    (h : (createSyncObjectsAt env i out).status = .returned) :
    (createSyncObjectsAt env i out).calls
        = [.vkCreateSemaphore, .vkCreateSemaphore, .vkCreateFence true]
      ∧ (createSyncObjectsAt env i out).out.outImageReadySemaphores.length
          = out.outImageReadySemaphores.length
      ∧ (createSyncObjectsAt env i out).out.outRenderFinishedSemaphores.length
          = out.outRenderFinishedSemaphores.length
      ∧ (createSyncObjectsAt env i out).out.outFlightFences.length = out.outFlightFences.length
      ∧ (createSyncObjectsAt env i out).out.outImagesInFlight = out.outImagesInFlight := by
  unfold createSyncObjectsAt at h ⊢
  simp only at h ⊢
  split at h
  · simp at h
  · split at h
    · simp at h
    · split at h
      · simp at h
      · rename_i h1 h2 h3
        simp [h1, h2, h3]

/-- C18: whatever the four output vectors held before and however many
swapchain images there are, when `CreateVulkanSyncObjects` returns there are
`MAX_FRAMES_IN_FLIGHT = 2` image-ready semaphores, 2 render-finished semaphores
and 2 in-flight fences, the creation calls are two semaphores and one fence
per slot with every fence created signaled, and the images-in-flight table
has one null entry per swapchain image. -/
theorem syncObjects_created (env : SyncEnv) (swapChainImages : List Handle) (out : SyncObjects)
    (h : (CreateVulkanSyncObjects env swapChainImages out).status = .returned) :
    (CreateVulkanSyncObjects env swapChainImages out).out.outImageReadySemaphores.length = 2
      ∧ (CreateVulkanSyncObjects env swapChainImages out).out.outRenderFinishedSemaphores.length
          = 2
      ∧ (CreateVulkanSyncObjects env swapChainImages out).out.outFlightFences.length = 2
      ∧ MAX_FRAMES_IN_FLIGHT = 2
      ∧ (CreateVulkanSyncObjects env swapChainImages out).calls
          = [.vkCreateSemaphore, .vkCreateSemaphore, .vkCreateFence true,
             .vkCreateSemaphore, .vkCreateSemaphore, .vkCreateFence true]
      ∧ (CreateVulkanSyncObjects env swapChainImages out).out.outImagesInFlight
          = List.replicate swapChainImages.length VK_NULL_HANDLE
      ∧ (CreateVulkanSyncObjects env swapChainImages out).out.outImagesInFlight.length
          = swapChainImages.length := by
  have hunfold : CreateVulkanSyncObjects env swapChainImages out
      = (createSyncObjectsAt env 0
          { outImageReadySemaphores := List.replicate 2 VK_NULL_HANDLE
            outRenderFinishedSemaphores := List.replicate 2 VK_NULL_HANDLE
            outFlightFences := List.replicate 2 VK_NULL_HANDLE
            outImagesInFlight := List.replicate swapChainImages.length VK_NULL_HANDLE }).andThen
        (fun first => (createSyncObjectsAt env 1 first).andThen
          (fun second => ⟨[], second, .returned⟩)) := rfl
  rw [hunfold] at h ⊢
  by_cases hfirst : (createSyncObjectsAt env 0
      { outImageReadySemaphores := List.replicate 2 VK_NULL_HANDLE
        outRenderFinishedSemaphores := List.replicate 2 VK_NULL_HANDLE
        outFlightFences := List.replicate 2 VK_NULL_HANDLE
        outImagesInFlight := List.replicate swapChainImages.length VK_NULL_HANDLE }).status
      = .returned
  · obtain ⟨c1, a1, b1, f1, t1⟩ := createSyncObjectsAt_returned env 0 _ hfirst
    rw [andThen_returned _ _ hfirst] at h ⊢
    simp only at h ⊢
    by_cases hsecond : (createSyncObjectsAt env 1 (createSyncObjectsAt env 0
        { outImageReadySemaphores := List.replicate 2 VK_NULL_HANDLE
          outRenderFinishedSemaphores := List.replicate 2 VK_NULL_HANDLE
          outFlightFences := List.replicate 2 VK_NULL_HANDLE
          outImagesInFlight := List.replicate swapChainImages.length VK_NULL_HANDLE }).out).status
        = .returned
    · obtain ⟨c2, a2, b2, f2, t2⟩ := createSyncObjectsAt_returned env 1 _ hsecond
      rw [andThen_returned _ _ hsecond]
      simp only
      rw [c1, c2, a2, a1, b2, b1, f2, f1, t2, t1]
      simp [MAX_FRAMES_IN_FLIGHT]
    · rw [andThen_stopped _ _ hsecond] at h
      exact absurd h hsecond
  · rw [andThen_stopped _ _ hfirst] at h
    exact absurd h hfirst

/-- C18, witness: under the sample driver, with three swapchain images and
output vectors left over from an earlier use. -/
theorem syncObjects_created_witness :
    (CreateVulkanSyncObjects sampleStartupEnv.sync [100, 101, 102] staleSyncObjects).status
        = .returned
      ∧ (CreateVulkanSyncObjects sampleStartupEnv.sync [100, 101, 102] staleSyncObjects).out
          = ⟨[500, 501], [600, 601], [700, 701], [0, 0, 0]⟩
      ∧ (CreateVulkanSyncObjects sampleStartupEnv.sync [100, 101, 102]
            staleSyncObjects).out.outImagesInFlight.length = 3 :=
  ⟨rfl, rfl,
    (syncObjects_created sampleStartupEnv.sync [100, 101, 102] staleSyncObjects rfl).2.2.2.2.2.2⟩

/-- A property of the variables that every part keeps holds after the
composition. -/
theorem andThen_out_invariant {σ : Type} (P : σ → Prop) (first : Ran σ) (next : σ → Ran σ)
    (hfirst : P first.out) (hnext : ∀ x, P x → P (next x).out) :
    P (first.andThen next).out := by
  by_cases hret : first.status = .returned
  · rw [andThen_returned _ _ hret]
    exact hnext _ hfirst
  · rw [andThen_stopped _ _ hret]
    exact hfirst

/-- A property that the second part establishes when it returns holds when
the composition returns. -/
theorem andThen_post {σ : Type} (P Q : σ → Prop) (first : Ran σ) (next : σ → Ran σ)
    (hfirst : P first.out)
    (hnext : ∀ x, P x → (next x).status = .returned → Q (next x).out)
    (h : (first.andThen next).status = .returned) :
    Q (first.andThen next).out := by
  by_cases hret : first.status = .returned
  · rw [andThen_returned _ _ hret] at h ⊢
    exact hnext _ hfirst h
  · rw [andThen_stopped _ _ hret] at h
    exact absurd h hret

/-- One pass of the creation loop keeps the lengths of the per-slot vectors. -/
theorem createSyncObjectsAt_lengths (env : SyncEnv) (i : Nat) (out : SyncObjects) :
    (createSyncObjectsAt env i out).out.outImageReadySemaphores.length
        = out.outImageReadySemaphores.length
      ∧ (createSyncObjectsAt env i out).out.outRenderFinishedSemaphores.length
          = out.outRenderFinishedSemaphores.length
      ∧ (createSyncObjectsAt env i out).out.outFlightFences.length
          = out.outFlightFences.length := by
  unfold createSyncObjectsAt
  simp only
  repeat' split
  all_goals simp

/-- The creation loop keeps the lengths of the per-slot vectors. -/
theorem createSyncObjectsFrom_lengths (env : SyncEnv) (remaining i n : Nat) (out : SyncObjects)
    (h : out.outImageReadySemaphores.length = n ∧ out.outRenderFinishedSemaphores.length = n
      ∧ out.outFlightFences.length = n) :
    (createSyncObjectsFrom env remaining i out).out.outImageReadySemaphores.length = n
      ∧ (createSyncObjectsFrom env remaining i out).out.outRenderFinishedSemaphores.length = n
      ∧ (createSyncObjectsFrom env remaining i out).out.outFlightFences.length = n := by
  induction remaining generalizing i out with
  | zero => exact h
  | succ k ih =>
    simp only [createSyncObjectsFrom]
    apply andThen_out_invariant
      (fun o : SyncObjects => o.outImageReadySemaphores.length = n
        ∧ o.outRenderFinishedSemaphores.length = n ∧ o.outFlightFences.length = n)
    · obtain ⟨a, b, c⟩ := createSyncObjectsAt_lengths env i out
      exact ⟨a.trans h.1, b.trans h.2.1, c.trans h.2.2⟩
    · intro x hx
      exact ih _ _ hx

/-- After the call of `CreateVulkanSyncObjects` in `main` the per-slot vectors
have `MAX_FRAMES_IN_FLIGHT` entries and `currentFrame` is as before. -/
theorem startupSyncObjects_slots (env : StartupEnv) (s : MainState)
    (hs : s.currentFrame = 0) : SlotsInRange (startupSyncObjects env s).out := by
  obtain ⟨a, b, c⟩ := createSyncObjectsFrom_lengths env.sync MAX_FRAMES_IN_FLIGHT 0
    MAX_FRAMES_IN_FLIGHT
    { outImageReadySemaphores := List.replicate MAX_FRAMES_IN_FLIGHT VK_NULL_HANDLE
      outRenderFinishedSemaphores := List.replicate MAX_FRAMES_IN_FLIGHT VK_NULL_HANDLE
      outFlightFences := List.replicate MAX_FRAMES_IN_FLIGHT VK_NULL_HANDLE
      outImagesInFlight := List.replicate s.vkChainImages.length VK_NULL_HANDLE }
    (by simp)
  unfold SlotsInRange startupSyncObjects CreateVulkanSyncObjects
  simp only
  refine ⟨?_, a, b, c⟩
  rw [hs]
  decide

/-- When the startup calls of `main` return, the frame slot and the per-slot
vectors are in range. -/
theorem startup_slots (env : StartupEnv) (s : MainState) (hs : s.currentFrame = 0)
    (h : (startup env s).status = .returned) : SlotsInRange (startup env s).out := by
  have hstep : ∀ step (update : MainState → MainState) (x : MainState),
      (∀ y, (update y).currentFrame = y.currentFrame) → x.currentFrame = 0 →
      (startupStep env step update x).out.currentFrame = 0 := by
    intro step update x hupdate hx
    unfold startupStep
    split <;> simp [hupdate, hx]
  unfold startup at h ⊢
  refine andThen_post (fun x => x.currentFrame = 0) SlotsInRange _ _
    (hstep _ _ _ (by intro y; rfl) hs) (fun x hx h => ?_) h
  refine andThen_post (fun x => x.currentFrame = 0) SlotsInRange _ _
    (hstep _ _ _ (by intro y; rfl) hx) (fun x hx h => ?_) h
  refine andThen_post (fun x => x.currentFrame = 0) SlotsInRange _ _
    hx (fun x hx h => ?_) h
  refine andThen_post (fun x => x.currentFrame = 0) SlotsInRange _ _
    (hstep _ _ _ (by intro y; rfl) hx) (fun x hx h => ?_) h
  refine andThen_post (fun x => x.currentFrame = 0) SlotsInRange _ _
    (hstep _ _ _ (by intro y; rfl) hx) (fun x hx h => ?_) h
  refine andThen_post (fun x => x.currentFrame = 0) SlotsInRange _ _
    (hstep _ _ _ (by intro y; rfl) hx) (fun x hx h => ?_) h
  refine andThen_post (fun x => x.currentFrame = 0) SlotsInRange _ _
    hx (fun x hx h => ?_) h
  refine andThen_post (fun x => x.currentFrame = 0) SlotsInRange _ _
    (hstep _ _ _ (by intro y; rfl) hx) (fun x hx h => ?_) h
  refine andThen_post (fun x => x.currentFrame = 0) SlotsInRange _ _
    (hstep _ _ _ (by intro y; rfl) hx) (fun x hx h => ?_) h
  refine andThen_post (fun x => x.currentFrame = 0) SlotsInRange _ _
    (hstep _ _ _ (by intro y; rfl) hx) (fun x hx h => ?_) h
  refine andThen_post (fun x => x.currentFrame = 0) SlotsInRange _ _
    (hstep _ _ _ (by intro y; rfl) hx) (fun x hx h => ?_) h
  refine andThen_post (fun x => x.currentFrame = 0) SlotsInRange _ _
    (hstep _ _ _ (by intro y; rfl) hx) (fun x hx h => ?_) h
  refine andThen_post (fun x => x.currentFrame = 0) SlotsInRange _ _
    (hstep _ _ _ (by intro y; rfl) hx) (fun x hx h => ?_) h
  refine andThen_post (fun x => x.currentFrame = 0) SlotsInRange _ _
    (hstep _ _ _ (by intro y; rfl) hx) (fun x hx h => ?_) h
  exact startupSyncObjects_slots env x hx

/-- An iteration keeps the frame slot and the per-slot vectors in range,
however it ends. -/
theorem drawFrame_slots (input : FrameInput) (s : MainState) (h : SlotsInRange s) :
    SlotsInRange (drawFrame input s).out := by
  unfold SlotsInRange MAX_FRAMES_IN_FLIGHT at h ⊢
  obtain ⟨hc, ha, hr, hf⟩ := h
  unfold drawFrame
  by_cases hquit : input.eventType = .SDL_QUIT <;>
  · simp only [hquit, if_true, if_false]
    repeat' split
    all_goals simp only [ha, hr, hf, hc, true_and, and_self, and_true, MAX_FRAMES_IN_FLIGHT]
    all_goals omega

/-- An iteration that completes advances the frame slot by one, modulo
`MAX_FRAMES_IN_FLIGHT`. -/
theorem drawFrame_advance (input : FrameInput) (s : MainState)
    (h : (drawFrame input s).status = .returned) :
    (drawFrame input s).out.currentFrame = (s.currentFrame + 1) % MAX_FRAMES_IN_FLIGHT := by
  unfold drawFrame at h ⊢
  by_cases hquit : input.eventType = .SDL_QUIT <;>
  · simp only [hquit, if_true, if_false] at h ⊢
    repeat' split at h
    all_goals first | (simp at h; done) | skip
    all_goals simp [*]

/-- The frame loop keeps the frame slot and the per-slot vectors in range. -/
theorem frameLoop_slots (inputs : List FrameInput) (s : MainState) (h : SlotsInRange s) :
    SlotsInRange (frameLoop inputs s).out := by
  induction inputs generalizing s with
  | nil =>
    simp only [frameLoop]
    split <;> exact h
  | cons input rest ih =>
    simp only [frameLoop]
    split
    · exact andThen_out_invariant SlotsInRange _ _ (drawFrame_slots input s h)
        (fun x hx => ih x hx)
    · exact h

/-- While the loop is running, the frame slot is the number of completed
iterations added to the slot it started with, modulo 2. -/
theorem frameLoop_slot (inputs : List FrameInput) (s : MainState)
    (h : (frameLoop inputs s).status = .pending) :
    (frameLoop inputs s).out.currentFrame % 2 = (s.currentFrame + inputs.length) % 2 := by
  induction inputs generalizing s with
  | nil =>
    by_cases hrun : s.isRunning = true
    · simp [frameLoop, hrun]
    · simp [frameLoop, hrun] at h
  | cons input rest ih =>
    by_cases hrun : s.isRunning = true
    · have hcons : frameLoop (input :: rest) s
          = (drawFrame input s).andThen (frameLoop rest) := by
        simp [frameLoop, hrun]
      rw [hcons] at h ⊢
      by_cases hret : (drawFrame input s).status = .returned
      · rw [andThen_returned _ _ hret] at h ⊢
        have hnext := ih _ h
        have hadvance := drawFrame_advance input s hret
        unfold MAX_FRAMES_IN_FLIGHT at hadvance
        simp only [List.length_cons]
        rw [hnext, hadvance]
        omega
      · rw [andThen_stopped _ _ hret] at h
        unfold drawFrame at h
        simp only at h
        repeat' split at h
        all_goals simp at h
    · simp [frameLoop, hrun] at h

/-- C17: in every state the frame loop of `main` reaches, `currentFrame` is
below `MAX_FRAMES_IN_FLIGHT = 2` and below the sizes of the three per-slot
vectors, so the accesses with it are in range; an iteration that completes
replaces `currentFrame` by `(currentFrame + 1) mod MAX_FRAMES_IN_FLIGHT`; and
when the loop is about to run its `k`-th iteration, counting from 0, the slot
is `k mod 2`. -/
theorem slot_round_robin (env : MainEnv) (before : List FrameInput)
    (hstart : (loopEntry env).status = .returned) :
    MAX_FRAMES_IN_FLIGHT = 2
      ∧ (loopAfter env before).out.currentFrame < MAX_FRAMES_IN_FLIGHT
      ∧ (loopAfter env before).out.currentFrame
          < (loopAfter env before).out.vkImageAvailableSemaphores.length
      ∧ (loopAfter env before).out.currentFrame
          < (loopAfter env before).out.vkRenderFinishedSemaphores.length
      ∧ (loopAfter env before).out.currentFrame
          < (loopAfter env before).out.vkInFlightFences.length
      ∧ (∀ input, (drawFrame input (loopAfter env before).out).status = .returned →
          (drawFrame input (loopAfter env before).out).out.currentFrame
            = ((loopAfter env before).out.currentFrame + 1) % MAX_FRAMES_IN_FLIGHT)
      ∧ ((loopAfter env before).status = .pending →
          (loopAfter env before).out.currentFrame = before.length % 2) := by
  have hentry : SlotsInRange (loopEntry env).out :=
    startup_slots env.startup (initialState env.startup) rfl hstart
  have hzero : (loopEntry env).out.currentFrame = 0 := by
    have hstep : ∀ step (update : MainState → MainState) (x : MainState),
        (∀ y, (update y).currentFrame = y.currentFrame) → x.currentFrame = 0 →
        (startupStep env.startup step update x).out.currentFrame = 0 := by
      intro step update x hupdate hx
      unfold startupStep
      split <;> simp [hupdate, hx]
    unfold loopEntry startup
    refine andThen_out_invariant (fun x : MainState => x.currentFrame = 0) _ _
      (hstep _ _ _ (by intro y; rfl) rfl) (fun x hx => ?_)
    refine andThen_out_invariant (fun x : MainState => x.currentFrame = 0) _ _
      (hstep _ _ _ (by intro y; rfl) hx) (fun x hx => ?_)
    refine andThen_out_invariant (fun x : MainState => x.currentFrame = 0) _ _ hx (fun x hx => ?_)
    refine andThen_out_invariant (fun x : MainState => x.currentFrame = 0) _ _
      (hstep _ _ _ (by intro y; rfl) hx) (fun x hx => ?_)
    refine andThen_out_invariant (fun x : MainState => x.currentFrame = 0) _ _
      (hstep _ _ _ (by intro y; rfl) hx) (fun x hx => ?_)
    refine andThen_out_invariant (fun x : MainState => x.currentFrame = 0) _ _
      (hstep _ _ _ (by intro y; rfl) hx) (fun x hx => ?_)
    refine andThen_out_invariant (fun x : MainState => x.currentFrame = 0) _ _ hx (fun x hx => ?_)
    refine andThen_out_invariant (fun x : MainState => x.currentFrame = 0) _ _
      (hstep _ _ _ (by intro y; rfl) hx) (fun x hx => ?_)
    refine andThen_out_invariant (fun x : MainState => x.currentFrame = 0) _ _
      (hstep _ _ _ (by intro y; rfl) hx) (fun x hx => ?_)
    refine andThen_out_invariant (fun x : MainState => x.currentFrame = 0) _ _
      (hstep _ _ _ (by intro y; rfl) hx) (fun x hx => ?_)
    refine andThen_out_invariant (fun x : MainState => x.currentFrame = 0) _ _
      (hstep _ _ _ (by intro y; rfl) hx) (fun x hx => ?_)
    refine andThen_out_invariant (fun x : MainState => x.currentFrame = 0) _ _
      (hstep _ _ _ (by intro y; rfl) hx) (fun x hx => ?_)
    refine andThen_out_invariant (fun x : MainState => x.currentFrame = 0) _ _
      (hstep _ _ _ (by intro y; rfl) hx) (fun x hx => ?_)
    refine andThen_out_invariant (fun x : MainState => x.currentFrame = 0) _ _
      (hstep _ _ _ (by intro y; rfl) hx) (fun x hx => ?_)
    exact hx
  have hslots : SlotsInRange (loopAfter env before).out :=
    frameLoop_slots before (loopEntry env).out hentry
  obtain ⟨hc, ha, hr, hf⟩ := hslots
  refine ⟨rfl, hc, by rw [ha]; exact hc, by rw [hr]; exact hc, by rw [hf]; exact hc,
    fun input hret => drawFrame_advance input _ hret, ?_⟩
  intro hpending
  have hslot := frameLoop_slot before (loopEntry env).out hpending
  rw [hzero] at hslot
  have hc2 : (loopAfter env before).out.currentFrame < 2 := hc
  have hmod : (loopAfter env before).out.currentFrame % 2
      = (loopAfter env before).out.currentFrame := Nat.mod_eq_of_lt hc2
  have hslot2 : (loopAfter env before).out.currentFrame % 2 = (0 + before.length) % 2 := hslot
  omega

/-- C17, witness: under the sample startup, after three completed iterations
the loop is about to run iteration 3 with slot `3 mod 2 = 1`. -/
theorem slot_round_robin_witness :
    (loopEntry ⟨sampleStartupEnv, []⟩).status = .returned
      ∧ (loopAfter ⟨sampleStartupEnv, []⟩
          [sampleFrame (.other 0) 0, sampleFrame (.other 0) 1, sampleFrame (.other 0) 2]).status
          = .pending
      ∧ (loopAfter ⟨sampleStartupEnv, []⟩
          [sampleFrame (.other 0) 0, sampleFrame (.other 0) 1,
            sampleFrame (.other 0) 2]).out.currentFrame = 1 :=
  ⟨rfl, rfl,
    (slot_round_robin ⟨sampleStartupEnv, []⟩
      [sampleFrame (.other 0) 0, sampleFrame (.other 0) 1, sampleFrame (.other 0) 2]
      rfl).2.2.2.2.2.2 rfl⟩

/-! ## The error notification and the exit status -/

/-- A composition shows no notification when its parts show none. -/
theorem andThen_silent {σ : Type} (first : Ran σ) (next : σ → Ran σ)
    (hfirst : ∀ c ∈ first.calls, isNotification c = false)
    (hnext : ∀ x, ∀ c ∈ (next x).calls, isNotification c = false) :
    ∀ c ∈ (first.andThen next).calls, isNotification c = false := by
  by_cases hret : first.status = .returned
  · rw [andThen_returned _ _ hret]
    intro c hc
    rcases List.mem_append.1 hc with hc | hc
    · exact hfirst c hc
    · exact hnext _ c hc
  · rw [andThen_stopped _ _ hret]
    exact hfirst

/-- `CreateVulkanSwapchain` shows no notification. -/
theorem createSwapchain_silent (env : SwapchainEnv) (width height : Int) (out : SwapchainOut) :
    ∀ c ∈ (CreateVulkanSwapchain env width height out).calls, isNotification c = false := by
  unfold CreateVulkanSwapchain
  repeat' split
  all_goals first
    | (simp; done)
    | (intro c hc
       simp only [List.mem_append, List.mem_singleton, List.mem_ite_nil_right] at hc
       rcases hc with ⟨_, hc⟩ | hc <;>
       · rw [hc]
         rfl)

/-- `CreateVulkanSyncObjects` shows no notification. -/
theorem createSyncObjects_silent (env : SyncEnv) (remaining i : Nat) (out : SyncObjects) :
    ∀ c ∈ (createSyncObjectsFrom env remaining i out).calls, isNotification c = false := by
  induction remaining generalizing i out with
  | zero => simp [createSyncObjectsFrom]
  | succ n ih =>
    simp only [createSyncObjectsFrom]
    apply andThen_silent
    · unfold createSyncObjectsAt
      repeat' split
      all_goals simp [isNotification]
    · intro x
      exact ih _ _

/-- The startup calls show no notification. -/
theorem startup_silent (env : StartupEnv) (s : MainState) :
    ∀ c ∈ (startup env s).calls, isNotification c = false := by
  have hstep : ∀ step update s,
      ∀ c ∈ (startupStep env step update s).calls, isNotification c = false := by
    intro step update s
    unfold startupStep
    split <;> simp
  unfold startup
  refine andThen_silent _ _ (hstep _ _ _) (fun _ => ?_)
  refine andThen_silent _ _ (hstep _ _ _) (fun _ => ?_)
  refine andThen_silent _ _ (by simp) (fun _ => ?_)
  refine andThen_silent _ _ (hstep _ _ _) (fun _ => ?_)
  refine andThen_silent _ _ (hstep _ _ _) (fun _ => ?_)
  refine andThen_silent _ _ (hstep _ _ _) (fun _ => ?_)
  refine andThen_silent _ _ (createSwapchain_silent _ _ _ _) (fun _ => ?_)
  refine andThen_silent _ _ (hstep _ _ _) (fun _ => ?_)
  refine andThen_silent _ _ (hstep _ _ _) (fun _ => ?_)
  refine andThen_silent _ _ (hstep _ _ _) (fun _ => ?_)
  refine andThen_silent _ _ (hstep _ _ _) (fun _ => ?_)
  refine andThen_silent _ _ (hstep _ _ _) (fun _ => ?_)
  refine andThen_silent _ _ (hstep _ _ _) (fun _ => ?_)
  refine andThen_silent _ _ (hstep _ _ _) (fun _ => ?_)
  exact createSyncObjects_silent _ _ _ _

/-- An iteration of the frame loop shows no notification. -/
theorem drawFrame_silent (input : FrameInput) (s : MainState) :
    ∀ c ∈ (drawFrame input s).calls, isNotification c = false := by
  unfold drawFrame
  simp only
  repeat' split
  all_goals simp [isNotification]

/-- The frame loop shows no notification. -/
theorem frameLoop_silent (inputs : List FrameInput) (s : MainState) :
    ∀ c ∈ (frameLoop inputs s).calls, isNotification c = false := by
  induction inputs generalizing s with
  | nil =>
    simp only [frameLoop]
    split <;> simp
  | cons input rest ih =>
    simp only [frameLoop]
    split
    · exact andThen_silent _ _ (drawFrame_silent _ _) (fun x => ih x)
    · simp

/-- The teardown shows no notification. -/
theorem teardown_silent (s : MainState) :
    ∀ c ∈ (teardown s).calls, isNotification c = false := by
  have hfrom : ∀ remaining i s,
      ∀ c ∈ (destroySyncObjectsFrom remaining i s).calls, isNotification c = false := by
    intro remaining
    induction remaining with
    | zero => intro i s; simp [destroySyncObjectsFrom]
    | succ n ih =>
      intro i s
      simp only [destroySyncObjectsFrom]
      apply andThen_silent
      · unfold destroySyncObjectsAt
        repeat' split
        all_goals simp [isNotification]
      · intro x
        exact ih _ _
  unfold teardown
  apply andThen_silent
  · exact hfrom _ _ _
  · intro x c hc
    simp only [List.mem_append, List.mem_map, List.mem_cons, List.mem_singleton,
      List.mem_nil_iff, or_false] at hc
    rcases hc with (((hc | ⟨_, _, hc⟩) | hc | hc | hc) | ⟨_, _, hc⟩) | hc | hc | hc | hc | hc <;>
      first
        | (rw [hc]; rfl)
        | (rw [← hc]; rfl)

/-- C16, counterexample: in `lostSubmitRun` the queue submit throws, the
notification is shown, and `main` returns with exit status 0. -/
theorem exit_status_counterexample :
    (tryBlock lostSubmitRun).status = .thrown "failed to submit draw command buffer!"
      ∧ Call.SDL_ShowSimpleMessageBox "failed to submit draw command buffer!"
          ∈ (main lostSubmitRun).calls
      ∧ (main lostSubmitRun).status = .returned
      ∧ (main lostSubmitRun).out = some 0 := by
  refine ⟨rfl, ?_, rfl, rfl⟩
  decide

/-- C16, amended: in every run of `main` in which a startup call or the queue
submit throws, exactly one error notification is shown and it carries the
message of the exception; in a run in which nothing throws none is shown;
and whenever `main` returns, after a fatal error or after a quit request, its
exit status is 0. -/
theorem fatal_error_reported (env : MainEnv) :
    (∀ message, (tryBlock env).status = .thrown message →
        (main env).calls.filter isNotification = [.SDL_ShowSimpleMessageBox message])
      ∧ ((∀ message, (tryBlock env).status ≠ .thrown message) →
        (main env).calls.filter isNotification = [])
      ∧ (∀ code, (main env).out = some code → code = 0) := by
  have hbody : (tryBlock env).calls.filter isNotification = [] := by
    rw [List.filter_eq_nil_iff]
    intro c hc
    have hsilent : ∀ c ∈ (tryBlock env).calls, isNotification c = false := by
      unfold tryBlock
      exact andThen_silent _ _ (startup_silent _ _) (fun x => frameLoop_silent _ x)
    simp [hsilent c hc]
  have hafter : (teardown (tryBlock env).out).calls.filter isNotification = [] := by
    rw [List.filter_eq_nil_iff]
    intro c hc
    simp [teardown_silent _ c hc]
  refine ⟨?_, ?_, ?_⟩
  · intro message hthrown
    rw [main_of_thrown env message hthrown, List.filter_append, List.filter_append, hbody, hafter]
    rfl
  · intro hnone
    unfold main
    simp only
    split
    · simp only [List.filter_append, hbody, hafter, List.append_nil]
    · rename_i message hthrown
      exact absurd hthrown (hnone message)
    · exact hbody
    · exact hbody
  · intro code hcode
    unfold main at hcode
    simp only at hcode
    split at hcode
    · split at hcode
      · injection hcode with hcode
        exact hcode.symm
      · cases hcode
    · split at hcode
      · injection hcode with hcode
        exact hcode.symm
      · cases hcode
    · cases hcode
    · cases hcode

/-- C16, witness of the amended statement on `lostSubmitRun`. -/
theorem fatal_error_reported_witness :
    (tryBlock lostSubmitRun).status = .thrown "failed to submit draw command buffer!"
      ∧ (main lostSubmitRun).calls.filter isNotification
          = [.SDL_ShowSimpleMessageBox "failed to submit draw command buffer!"]
      ∧ (main lostSubmitRun).out = some 0 :=
  ⟨rfl, (fatal_error_reported lostSubmitRun).1 _ rfl, rfl⟩

/-! ## The extent sentinel and the membership of the chosen format -/

/-- C19, the code on a surface whose current extent is `0xFFFFFFFF` in both
components: line 425 compares with `0xFFFFFFF`, the branch that clamps is not
taken, and the extent handed back and requested is the all-ones value, above
the maximum extent `4096 x 4096`, where clamping `1280 x 720` gives
`1280 x 720`. -/
theorem sentinel_extent_eval :
    sentinelSwapchainEnv.surfaceCapabilities.currentExtent.width = 0xFFFFFFFF
      ∧ (CreateVulkanSwapchain sentinelSwapchainEnv WIDTH HEIGHT sampleSwapchainOut).status
          = .returned
      ∧ (CreateVulkanSwapchain sentinelSwapchainEnv WIDTH HEIGHT sampleSwapchainOut).out.outExtent
          = ⟨4294967295, 4294967295⟩
      ∧ (CreateVulkanSwapchain sentinelSwapchainEnv WIDTH HEIGHT sampleSwapchainOut).calls
          = [.vkCreateSwapchainKHR
              { sampleSwapInfo with imageExtent := ⟨4294967295, 4294967295⟩ }]
      ∧ sentinelSwapchainEnv.surfaceCapabilities.maxImageExtent = ⟨4096, 4096⟩
      ∧ clamp (toUInt32 WIDTH) 1 4096 = 1280
      ∧ clamp (toUInt32 HEIGHT) 1 4096 = 720 := by
  refine ⟨rfl, rfl, rfl, rfl, rfl, ?_, ?_⟩ <;> decide

/-- C20, the code on two format lists that are non-empty and not a single
`VK_FORMAT_UNDEFINED` entry: on `mixedFormats` and on `wideGamutFormats`
`GetVulkanImageFormat` returns a pair that is no element of the list. -/
theorem imageFormat_outside_eval :
    GetVulkanImageFormat .VK_SUCCESS .VK_SUCCESS mixedFormats
        = .returned ⟨.VK_FORMAT_B8G8R8A8_SRGB, .VK_COLOR_SPACE_SRGB_NONLINEAR_KHR⟩
      ∧ (⟨.VK_FORMAT_B8G8R8A8_SRGB, .VK_COLOR_SPACE_SRGB_NONLINEAR_KHR⟩ : VkSurfaceFormatKHR)
          ∉ mixedFormats
      ∧ GetVulkanImageFormat .VK_SUCCESS .VK_SUCCESS wideGamutFormats
          = .returned ⟨.VK_FORMAT_B8G8R8A8_SRGB, .VK_COLOR_SPACE_HDR10_ST2084_EXT⟩
      ∧ (⟨.VK_FORMAT_B8G8R8A8_SRGB, .VK_COLOR_SPACE_HDR10_ST2084_EXT⟩ : VkSurfaceFormatKHR)
          ∉ wideGamutFormats := by
  refine ⟨rfl, ?_, rfl, ?_⟩ <;> decide

/-! ## The teardown after a failed startup -/

/-- With an empty vector of render-finished semaphores the first access of the
teardown is out of range, and nothing is destroyed. -/
theorem teardown_empty_slots (s : MainState) (h : s.vkRenderFinishedSemaphores = []) :
    (teardown s).status = .undefinedBehaviour ∧ (teardown s).calls = [] := by
  have hfirst : destroySyncObjectsAt 0 s = ⟨[], s, .undefinedBehaviour⟩ := by
    unfold destroySyncObjectsAt
    rw [h]
    rfl
  have hloop : destroySyncObjectsFrom MAX_FRAMES_IN_FLIGHT 0 s
      = ⟨[], s, .undefinedBehaviour⟩ := by
    have hunfold : destroySyncObjectsFrom MAX_FRAMES_IN_FLIGHT 0 s
        = (destroySyncObjectsAt 0 s).andThen (destroySyncObjectsFrom 1 1) := rfl
    rw [hunfold, hfirst]
    rfl
  unfold teardown
  rw [hloop]
  exact ⟨rfl, rfl⟩

/-- C21, the code after a startup that throws before
`CreateVulkanSyncObjects`: in `noApiRun` and in `noRenderPassRun` the three
per-slot vectors are still empty when the `try` block is left, the
notification is shown, and the first access of the teardown,
`vkRenderFinishedSemaphores[0]`, is out of range.  When
`CreateVulkanSyncObjects` itself throws (`noFenceRun`) the vectors have two
entries and the teardown runs through. -/
theorem teardown_range_eval :
    (tryBlock noApiRun).status = .thrown "Vulkan: API Not Supported"
      ∧ (tryBlock noApiRun).out.vkRenderFinishedSemaphores.length = 0
      ∧ (tryBlock noApiRun).out.vkImageAvailableSemaphores.length = 0
      ∧ (tryBlock noApiRun).out.vkInFlightFences.length = 0
      ∧ (destroySyncObjectsAt 0 (tryBlock noApiRun).out).status = .undefinedBehaviour
      ∧ (main noApiRun).status = .undefinedBehaviour
      ∧ (main noApiRun).calls = [.SDL_ShowSimpleMessageBox "Vulkan: API Not Supported"]
      ∧ (tryBlock noRenderPassRun).status = .thrown "failed to create render pass!"
      ∧ (tryBlock noRenderPassRun).out.vkRenderFinishedSemaphores.length = 0
      ∧ (main noRenderPassRun).status = .undefinedBehaviour
      ∧ (tryBlock noFenceRun).status
          = .thrown "failed to create synchronization objects for a frame!"
      ∧ (tryBlock noFenceRun).out.vkRenderFinishedSemaphores.length = 2
      ∧ (main noFenceRun).status = .returned :=
  ⟨rfl, rfl, rfl, rfl, rfl, rfl, rfl, rfl, rfl, rfl, rfl, rfl, rfl⟩

/-! ## The teardown after the frame loop -/

/-- The teardown on per-slot vectors of two entries each. -/
theorem teardown_run (s : MainState) (renderFinished0 renderFinished1 imageAvailable0
    imageAvailable1 inFlightFence0 inFlightFence1 : Handle)
    (hfinished : s.vkRenderFinishedSemaphores = [renderFinished0, renderFinished1])
    (havailable : s.vkImageAvailableSemaphores = [imageAvailable0, imageAvailable1])
    (hfence : s.vkInFlightFences = [inFlightFence0, inFlightFence1]) :
    (teardown s).status = .returned
      ∧ (teardown s).calls = teardownCalls s renderFinished0 renderFinished1 imageAvailable0
          imageAvailable1 inFlightFence0 inFlightFence1 := by
  have hfirst : destroySyncObjectsAt 0 s =
      ⟨[.vkDestroySemaphore renderFinished0, .vkDestroySemaphore imageAvailable0,
        .vkDestroyFence inFlightFence0], s, .returned⟩ := by
    unfold destroySyncObjectsAt
    rw [hfinished, havailable, hfence]
    rfl
  have hsecond : destroySyncObjectsAt 1 s =
      ⟨[.vkDestroySemaphore renderFinished1, .vkDestroySemaphore imageAvailable1,
        .vkDestroyFence inFlightFence1], s, .returned⟩ := by
    unfold destroySyncObjectsAt
    rw [hfinished, havailable, hfence]
    rfl
  have hloop : destroySyncObjectsFrom MAX_FRAMES_IN_FLIGHT 0 s =
      ⟨[.vkDestroySemaphore renderFinished0, .vkDestroySemaphore imageAvailable0,
        .vkDestroyFence inFlightFence0,
        .vkDestroySemaphore renderFinished1, .vkDestroySemaphore imageAvailable1,
        .vkDestroyFence inFlightFence1], s, .returned⟩ := by
    have hunfold : destroySyncObjectsFrom MAX_FRAMES_IN_FLIGHT 0 s
        = (destroySyncObjectsAt 0 s).andThen
            (fun first => (destroySyncObjectsAt 1 first).andThen
              (fun second => ⟨[], second, .returned⟩)) := rfl
    rw [hunfold, hfirst]
    unfold Ran.andThen
    simp only
    rw [hsecond]
    rfl
  unfold teardown
  rw [hloop]
  unfold Ran.andThen teardownCalls
  simp

/-- C5, amended: no run of `main` issues a device-idle wait.  When the frame
loop was entered and is left, by a quit request or by an exception, `main`
returns and its calls are those of the `try` block, then the notification if
an exception was thrown, then directly the teardown, which begins by
destroying the render-finished semaphore, the image-available semaphore and
the fence of slot 0 and then of slot 1, and goes on with the command pool, the
framebuffers, pipeline, pipeline layout and render pass, the image views, the
swapchain, device, surface, debug messenger and instance. -/
theorem main_never_waits_idle (env : MainEnv) :
    Call.vkDeviceWaitIdle ∉ (main env).calls
      ∧ ((loopEntry env).status = .returned →
          ((tryBlock env).status = .returned ∨ ∃ message, (tryBlock env).status = .thrown message) →
          ∃ renderFinished0 renderFinished1 imageAvailable0 imageAvailable1 inFlightFence0
              inFlightFence1,
            (tryBlock env).out.vkRenderFinishedSemaphores = [renderFinished0, renderFinished1]
              ∧ (tryBlock env).out.vkImageAvailableSemaphores = [imageAvailable0, imageAvailable1]
              ∧ (tryBlock env).out.vkInFlightFences = [inFlightFence0, inFlightFence1]
              ∧ (main env).status = .returned
              ∧ (main env).calls = (tryBlock env).calls ++ notificationOf (tryBlock env).status
                  ++ teardownCalls (tryBlock env).out renderFinished0 renderFinished1
                      imageAvailable0 imageAvailable1 inFlightFence0 inFlightFence1) := by
  constructor
  · have hbody : Call.vkDeviceWaitIdle ∉ (tryBlock env).calls := by
      unfold tryBlock
      exact andThen_no_idle _ _ (startup_no_idle _ _) (fun x => frameLoop_no_idle _ x)
    have hafter := teardown_no_idle (tryBlock env).out
    unfold main
    simp only
    split <;> simp [hbody, hafter]
  · intro hstart hleft
    have hslots : SlotsInRange (tryBlock env).out := by
      unfold tryBlock
      exact andThen_out_invariant SlotsInRange _ _
        (startup_slots env.startup (initialState env.startup) rfl hstart)
        (fun x hx => frameLoop_slots env.frames x hx)
    obtain ⟨_, havailable, hfinished, hfence⟩ := hslots
    obtain ⟨renderFinished0, renderFinished1, hfinished⟩ := List.length_eq_two.1 hfinished
    obtain ⟨imageAvailable0, imageAvailable1, havailable⟩ := List.length_eq_two.1 havailable
    obtain ⟨inFlightFence0, inFlightFence1, hfence⟩ := List.length_eq_two.1 hfence
    obtain ⟨hstatus, hcalls⟩ := teardown_run (tryBlock env).out renderFinished0 renderFinished1
      imageAvailable0 imageAvailable1 inFlightFence0 inFlightFence1 hfinished havailable hfence
    refine ⟨renderFinished0, renderFinished1, imageAvailable0, imageAvailable1, inFlightFence0,
      inFlightFence1, hfinished, havailable, hfence, ?_, ?_⟩
    · unfold main
      simp only
      rcases hleft with hret | ⟨message, hthrown⟩
      · rw [hret]
        exact hstatus
      · rw [hthrown]
        exact hstatus
    · rcases hleft with hret | ⟨message, hthrown⟩
      · have hmain : (main env).calls = (tryBlock env).calls ++ (teardown (tryBlock env).out).calls := by
          unfold main
          simp only
          rw [hret]
        rw [hmain, hcalls, hret]
        simp [notificationOf]
      · rw [main_of_thrown env message hthrown, hcalls, hthrown]
        simp [notificationOf]

/-- C5, witness of the amended statement: `quitRun` leaves the loop by a quit
request and `lostSubmitRun` by an exception; in both the teardown starts with
the objects of slot 0. -/
theorem main_never_waits_idle_witness :
    (tryBlock quitRun).status = .returned
      ∧ (main quitRun).calls = (tryBlock quitRun).calls
          ++ teardownCalls (tryBlock quitRun).out 600 601 500 501 700 701
      ∧ (tryBlock lostSubmitRun).status = .thrown "failed to submit draw command buffer!"
      ∧ (main lostSubmitRun).calls = (tryBlock lostSubmitRun).calls
          ++ [.SDL_ShowSimpleMessageBox "failed to submit draw command buffer!"]
          ++ teardownCalls (tryBlock lostSubmitRun).out 600 601 500 501 700 701
      ∧ (∃ renderFinished0 renderFinished1 imageAvailable0 imageAvailable1 inFlightFence0
            inFlightFence1,
          (tryBlock quitRun).out.vkRenderFinishedSemaphores = [renderFinished0, renderFinished1]
            ∧ (tryBlock quitRun).out.vkImageAvailableSemaphores
                = [imageAvailable0, imageAvailable1]
            ∧ (tryBlock quitRun).out.vkInFlightFences = [inFlightFence0, inFlightFence1]
            ∧ (main quitRun).status = .returned
            ∧ (main quitRun).calls = (tryBlock quitRun).calls
                ++ notificationOf (tryBlock quitRun).status
                ++ teardownCalls (tryBlock quitRun).out renderFinished0 renderFinished1
                    imageAvailable0 imageAvailable1 inFlightFence0 inFlightFence1) :=
  ⟨rfl, rfl, rfl, rfl, (main_never_waits_idle quitRun).2 rfl (Or.inl rfl)⟩

end AVulkan
